import Mathlib

/-!
Shallow embedding of `src/services/camera/libcameraservice/CameraService.cpp`
(android_frameworks_av): the connection-arbitration and lifecycle state
machine of the camera service.

Modelling conventions:
* Binder endpoints (`sp<IBinder>` identities obtained via `asBinder()`) are
  `Nat` handles; two handles are the same remote endpoint iff they are equal.
* `wp<Client> mClient[MAX_CAMERAS]` is a per-slot `Option Nat` pointing into
  an allocation list `clients : List ClientObj`; a weak promotion succeeds iff
  the pointed-to client's `alive` flag is set (its strong reference count is
  still nonzero).  `Op.dropStrongRef` models the last strong reference being
  dropped, `Op.runDestructor` the destructor body running afterwards, so the
  race window between the two is a real intermediate state.
* C `int` values (camera ids, pids, uids, versions, `mSoundRef`,
  `mNumberOfCameras`) are `Int`; no arithmetic here can overflow 32 bits in
  any scenario the claims quantify over, so no explicit wrap-around is added.
* Fallible HAL calls return `Option`; `none` is a non-OK status.
* Each public entry point is one atomic transition (`Op`/`applyOp`), matching
  the source's global-lock discipline; logging is dropped.
-/

namespace CameraService

/-- Status codes used by the modelled entry points (from `utils/Errors.h`;
the exact integer values are irrelevant to the claims, only their
distinctness). `unknownError` stands for any non-OK status forwarded from the
HAL module's `get_camera_info`. -/
inductive Status where
  | OK
  | NO_INIT
  | BAD_VALUE
  | PERMISSION_DENIED
  | INVALID_OPERATION
  | unknownError
deriving DecidableEq, Repr

/-- App-ops check results (`AppOpsManager::MODE_ALLOWED / MODE_IGNORED /
MODE_ERRORED`). -/
inductive AppOpsMode where
  | allowed
  | ignored
  | errored
deriving DecidableEq, Repr

/-- Modelled from the spec: `MAX_CAMERAS` is a compile-time bound declared in
`CameraService.h`, which is not among the given sources; the spec only says
the HAL-reported device count is clamped down to it.  Its concrete value is
irrelevant to every claim (all statements are generic in it); `2` matches the
two-device assumption visible in `sound_kind`-style small fixed arrays. -/
def MAX_CAMERAS : Int := 2

/-- Modelled from the spec: `USE_CALLING_UID` is the sentinel declared in the
`ICameraService` header (not among the given sources) meaning "resolve the
uid of the calling process"; `CameraService::connect` compares `clientUid`
against it. -/
def USE_CALLING_UID : Int := -1

/-- `AppOpsManager::OP_CAMERA` (framework constant; exact value irrelevant,
only used for the equality test in `opChanged`). -/
def OP_CAMERA : Int := 26

/-- `CAMERA_DEVICE_API_VERSION_1_0` = `HARDWARE_DEVICE_API_VERSION(1,0)`. -/
def CAMERA_DEVICE_API_VERSION_1_0 : Int := 0x100

/-- `CAMERA_DEVICE_API_VERSION_2_0` = `HARDWARE_DEVICE_API_VERSION(2,0)`. -/
def CAMERA_DEVICE_API_VERSION_2_0 : Int := 0x200

/-- `CAMERA_DEVICE_API_VERSION_2_1` = `HARDWARE_DEVICE_API_VERSION(2,1)`. -/
def CAMERA_DEVICE_API_VERSION_2_1 : Int := 0x201

/-- `CAMERA_MODULE_API_VERSION_2_0`. -/
def CAMERA_MODULE_API_VERSION_2_0 : Int := 0x200

/-- The static per-device record a HAL module answers `get_camera_info`
with (`struct camera_info`): facing, orientation and device version. -/
structure CameraInfoHal where
  facing : Int
  orientation : Int
  device_version : Int
deriving DecidableEq, Repr

/-- The loaded HAL module (`camera_module_t`): its module API version, the
count answered by `get_number_of_cameras()` (a C `int`, so an `Int`), and for
each id the `get_camera_info` answer (`none` = the call fails with a non-OK
status). -/
structure CameraModule where
  moduleApiVersion : Int
  halNumberOfCameras : Int
  cameraInfos : List (Option CameraInfoHal)
deriving DecidableEq, Repr

/-- `mModule->get_camera_info(id, &info)`: fails (non-OK) for ids the module
does not answer. -/
def CameraModule.get_camera_info (m : CameraModule) (cameraId : Int) :
    Option CameraInfoHal :=
  if cameraId < 0 then none else (m.cameraInfos.getD cameraId.toNat none)

/-- Which concrete class `connect` instantiated: `CameraClient` (HAL1 legacy),
`Camera2Client` (HAL2 modern) or `ProCamera2Client` (observer). -/
inductive ClientVariant where
  | cameraClient
  | camera2Client
  | proCamera2Client
deriving DecidableEq, Repr

/-- One allocated `BasicClient` object (a `Client` when `isPro = false`, a
`ProClient` when `isPro = true`), with the fields `BasicClient::BasicClient`
stores plus the bookkeeping the embedding needs:
* `alive`: the strong reference count is nonzero, i.e. a weak promotion of
  this object succeeds;
* `destroyed`: the destructor body has completed;
* `disconnected`: ghost flag, set exactly when this object's virtual
  `disconnect()` body (`Client::disconnect` / `ProClient::disconnect`)
  completes, so that theorems can speak about "its disconnect was invoked". -/
structure ClientObj where
  remote : Nat
  cameraId : Int
  cameraFacing : Int
  variant : ClientVariant
  isPro : Bool
  clientPid : Int
  clientUid : Int
  packageName : String
  servicePid : Int
  opsActive : Bool
  destructionStarted : Bool
  alive : Bool
  destroyed : Bool
  disconnected : Bool
deriving DecidableEq, Repr

/-- Observable actions of the teardown paths, in program order.  These are
the side effects the temporal claims are about. -/
inductive Event where
  | setCameraBusy (cameraId : Int)
  | setCameraFree (cameraId : Int)
  | loadSound
  | releaseSound
  | finishOp
  | stopWatchingMode
  | markDestructionStarted
  | clearSlot (idx : Nat)
  | unlinkToDeath (remote : Nat)
  | linkToDeath (remote : Nat)
  | notifyError (remote : Nat)
  | setClientPid (pid : Int)
deriving DecidableEq, Repr

/-- The whole service state: `mModule`, `mNumberOfCameras`, `mBusy[]`,
`mClient[]` (weak slot table), `mProClientList[]`, the allocation list of all
client objects ever constructed, `mSoundRef`, whether the two
`mSoundPlayer[]` entries are loaded, the `getpid()` of the service process,
and the `sys.secpolicy.camera.disabled` system property. -/
structure CamState where
  module : Option CameraModule
  numberOfCameras : Int
  busy : List Bool
  slot : List (Option Nat)
  proClients : List (List Nat)
  clients : List ClientObj
  soundRef : Int
  soundLoaded : List Bool
  servicePid : Int
  disabledProp : Bool
deriving DecidableEq, Repr

/-- Replace the client object at index `cid` by `f` of it (out-of-range is a
no-op); all other allocation entries are untouched. -/
def modifyClient : List ClientObj → Nat → (ClientObj → ClientObj) → List ClientObj
  | [], _, _ => []
  | c :: rest, 0, f => f c :: rest
  | c :: rest, n + 1, f => c :: modifyClient rest n f

/-- `mDestructionStarted = true` on a client record. -/
def markStartedUpdate (x : ClientObj) : ClientObj := { x with destructionStarted := true }

/-- `mOpsActive = false` on a client record (the `finishOp` part of
`finishCameraOps`). -/
def opsOffUpdate (x : ClientObj) : ClientObj := { x with opsActive := false }

/-- Ghost: this client's `disconnect()` body completed. -/
def discUpdate (x : ClientObj) : ClientObj := { x with disconnected := true }

/-- This client's destructor body completed. -/
def destroyedUpdate (x : ClientObj) : ClientObj := { x with destroyed := true }

/-- The last strong reference to this client is gone: weak promotion fails
from now on. -/
def deadUpdate (x : ClientObj) : ClientObj := { x with alive := false }

/-- `mClientPid = getCallingPid()` (the re-stamp in `opChanged`). -/
def pidUpdate (p : Int) (x : ClientObj) : ClientObj := { x with clientPid := p }

/-- `CameraService::getNumberOfCameras`. -/
def getNumberOfCameras (s : CamState) : Int :=
  s.numberOfCameras

/-- `CameraService::getCameraInfo`: `NO_INIT` without a module, `BAD_VALUE`
for an out-of-range id, otherwise the module's `get_camera_info` status with
the copied facing/orientation pair.  The function reads but never writes the
service state, reflected by its type. -/
def getCameraInfo (s : CamState) (cameraId : Int) : Status × Option (Int × Int) :=
  match s.module with
  | none => (Status.NO_INIT, none)
  | some m =>
    if cameraId < 0 ∨ s.numberOfCameras ≤ cameraId then (Status.BAD_VALUE, none)
    else
      match m.get_camera_info cameraId with
      | none => (Status.unknownError, none)
      | some info => (Status.OK, some (info.facing, info.orientation))

/-- `CameraService::getDeviceVersion`: `-1` when `get_camera_info` fails;
otherwise the device's own version for a module API `≥ 2.0` and
`CAMERA_DEVICE_API_VERSION_1_0` for an older module.  Also returns the
facing output parameter. -/
def getDeviceVersion (m : CameraModule) (cameraId : Int) : Int × Option Int :=
  match m.get_camera_info cameraId with
  | none => (-1, none)
  | some info =>
    let deviceVersion :=
      if CAMERA_MODULE_API_VERSION_2_0 ≤ m.moduleApiVersion then info.device_version
      else CAMERA_DEVICE_API_VERSION_1_0
    (deviceVersion, some info.facing)

/-- `CameraService::setCameraBusy`: atomically write 1 into `mBusy[id]`. -/
def setCameraBusy (s : CamState) (cameraId : Int) : CamState :=
  { s with busy := s.busy.set cameraId.toNat true }

/-- `CameraService::setCameraFree`: atomically write 0 into `mBusy[id]`. -/
def setCameraFree (s : CamState) (cameraId : Int) : CamState :=
  { s with busy := s.busy.set cameraId.toNat false }

/-- `CameraService::loadSound`: `if (mSoundRef++) return;` then create the
two media players; `ok1`/`ok2` are the outcomes of the two `newMediaPlayer`
calls (a failed one leaves that player null). -/
def loadSound (s : CamState) (ok1 ok2 : Bool) : CamState × List Event :=
  if s.soundRef ≠ 0 then ({ s with soundRef := s.soundRef + 1 }, [Event.loadSound])
  else ({ s with soundRef := s.soundRef + 1, soundLoaded := [ok1, ok2] }, [Event.loadSound])

/-- `CameraService::releaseSound`: `if (--mSoundRef) return;` then disconnect
and clear every loaded player. -/
def releaseSound (s : CamState) : CamState × List Event :=
  if s.soundRef - 1 ≠ 0 then ({ s with soundRef := s.soundRef - 1 }, [Event.releaseSound])
  else ({ s with soundRef := s.soundRef - 1, soundLoaded := [false, false] }, [Event.releaseSound])

/-- The loop body of `CameraService::findClientUnsafe` over the indices still
to visit: skip empty slots, clear (prune) slots whose weak reference no
longer promotes, stop at the first live client whose remote endpoint equals
`remote`.  Returns the (possibly pruned) slot table and the found
(slot index, client id) pair. -/
def findClientGo (clients : List ClientObj) (remote : Nat) :
    List (Option Nat) → List Nat → List (Option Nat) × Option (Nat × Nat)
  | slots, [] => (slots, none)
  | slots, i :: rest =>
    match slots.getD i none with
    | none => findClientGo clients remote slots rest
    | some cid =>
      match clients[cid]? with
      | none => findClientGo clients remote (slots.set i none) rest
      | some c =>
        if c.alive then
          if c.remote = remote then (slots, some (i, cid))
          else findClientGo clients remote slots rest
        else findClientGo clients remote (slots.set i none) rest

/-- `CameraService::findClientUnsafe`: scan `mClient[0 .. mNumberOfCameras)`
for a live client whose `getCameraClient()->asBinder()` equals `remote`,
pruning stale entries on the way. -/
def findClientUnsafe (s : CamState) (remote : Nat) : CamState × Option (Nat × Nat) :=
  let res := findClientGo s.clients remote s.slot (List.range s.numberOfCameras.toNat)
  ({ s with slot := res.1 }, res.2)

/-- `CameraService::getClientByRemote` (the lock around `findClientUnsafe`). -/
def getClientByRemote (s : CamState) (remote : Nat) : CamState × Option (Nat × Nat) :=
  findClientUnsafe s remote

/-- The inner loop of `CameraService::findProClientUnsafe` over one device's
`mProClientList[i]`: prune entries whose promotion fails, stop at the first
live entry whose remote callback binder equals `remote` (entries after the
break point are kept unvisited). -/
def findProClientInList (clients : List ClientObj) (remote : Nat) :
    List Nat → List Nat × Option Nat
  | [] => ([], none)
  | cid :: rest =>
    match clients[cid]? with
    | none =>
      let r := findProClientInList clients remote rest
      (r.1, r.2)
    | some c =>
      if c.alive then
        if c.remote = remote then (cid :: rest, some cid)
        else
          let r := findProClientInList clients remote rest
          (cid :: r.1, r.2)
      else
        let r := findProClientInList clients remote rest
        (r.1, r.2)

/-- The outer loop of `CameraService::findProClientUnsafe` over device
indices; a match found in a later list overwrites `clientPro` found in an
earlier one, exactly as the source's repeated assignment does. -/
def findProGo (clients : List ClientObj) (remote : Nat) :
    List (List Nat) → Option Nat → List Nat → List (List Nat) × Option Nat
  | pls, acc, [] => (pls, acc)
  | pls, acc, i :: rest =>
    let r := findProClientInList clients remote (pls.getD i [])
    findProGo clients remote (pls.set i r.1) (match r.2 with | some c => some c | none => acc) rest

/-- `CameraService::findProClientUnsafe`. -/
def findProClientUnsafe (s : CamState) (remote : Nat) : CamState × Option Nat :=
  let res := findProGo s.clients remote s.proClients none (List.range s.numberOfCameras.toNat)
  ({ s with proClients := res.1 }, res.2)

/-- `CameraService::removeClientByRemote`: under the service lock, find the
exclusive client owning `remote`; if found clear its slot and unlink the
death notification; otherwise look for (and lazily prune) a matching pro
client and unlink its death notification. -/
def removeClientByRemote (s : CamState) (remote : Nat) : CamState × List Event :=
  let s1 := (findClientUnsafe s remote).1
  match (findClientUnsafe s remote).2 with
  | some ir =>
    ({ s1 with slot := s1.slot.set ir.1 none },
     [Event.clearSlot ir.1, Event.unlinkToDeath remote])
  | none =>
    let s2 := (findProClientUnsafe s1 remote).1
    match (findProClientUnsafe s1 remote).2 with
    | some _ => (s2, [Event.unlinkToDeath remote])
    | none => (s2, [])

/-- `CameraService::BasicClient::disconnect`:
`mCameraService->removeClientByRemote(mRemoteCallback)`. -/
def basicClientDisconnect (s : CamState) (remote : Nat) : CamState × List Event :=
  removeClientByRemote s remote

/-- `CameraService::Client::disconnect` (idempotent): run
`BasicClient::disconnect`, then `setCameraFree(mCameraId)` as the last
action.  The ghost `disconnected` flag of the client records that its
disconnect body completed. -/
def clientDisconnect (s : CamState) (cid : Nat) : CamState × List Event :=
  match s.clients[cid]? with
  | none => (s, [])
  | some c =>
    let r := basicClientDisconnect s c.remote
    let s2 := setCameraFree r.1 c.cameraId
    let s3 := { s2 with clients := modifyClient s2.clients cid discUpdate }
    (s3, r.2 ++ [Event.setCameraFree c.cameraId])

/-- `CameraService::ProClient::disconnect`: just `BasicClient::disconnect`
(no busy slot to free). -/
def proClientDisconnect (s : CamState) (cid : Nat) : CamState × List Event :=
  match s.clients[cid]? with
  | none => (s, [])
  | some c =>
    let r := basicClientDisconnect s c.remote
    let s2 := { r.1 with clients := modifyClient r.1.clients cid discUpdate }
    (s2, r.2)

/-- `CameraService::BasicClient::finishCameraOps`: finish the op if active,
then stop watching the app-ops mode and clear the callback. -/
def finishCameraOps (s : CamState) (cid : Nat) : CamState × List Event :=
  match s.clients[cid]? with
  | none => (s, [])
  | some c =>
    if c.opsActive then
      ({ s with clients := modifyClient s.clients cid opsOffUpdate },
       [Event.finishOp, Event.stopWatchingMode])
    else (s, [Event.stopWatchingMode])

/-- `CameraService::Client::~Client`: set `mDestructionStarted`, release the
shared sound resource, finish camera ops, then the unconditional idempotent
`Client::disconnect()`; finally the object is dead (`destroyed`).  (The
inherited `~BasicClient` body only re-sets `mDestructionStarted`.) -/
def runClientDestructor (s : CamState) (cid : Nat) : CamState × List Event :=
  match s.clients[cid]? with
  | none => (s, [])
  | some _ =>
    let s0 := { s with clients := modifyClient s.clients cid markStartedUpdate }
    let r1 := releaseSound s0
    let r2 := finishCameraOps r1.1 cid
    let r3 := clientDisconnect r2.1 cid
    let s4 := { r3.1 with clients := modifyClient r3.1.clients cid destroyedUpdate }
    (s4, [Event.markDestructionStarted] ++ r1.2 ++ r2.2 ++ r3.2)

/-- `CameraService::ProClient::~ProClient`: set `mDestructionStarted`, then
`ProClient::disconnect()`; finally the object is dead. -/
def runProClientDestructor (s : CamState) (cid : Nat) : CamState × List Event :=
  match s.clients[cid]? with
  | none => (s, [])
  | some _ =>
    let s0 := { s with clients := modifyClient s.clients cid markStartedUpdate }
    let r1 := proClientDisconnect s0 cid
    let s2 := { r1.1 with clients := modifyClient r1.1.clients cid destroyedUpdate }
    (s2, [Event.markDestructionStarted] ++ r1.2)

/-- `CameraService::BasicClient::opChanged` as dispatched through
`OpsCallback::opChanged` (which first promotes the weak client reference):
for `OP_CAMERA` with a non-ALLOWED `checkOp` answer (`res`, an input from the
app-ops service) the client re-stamps `mClientPid` to the current calling
pid, emits the error notification to its remote, then disconnects.
`ProClient::notifyError` is an unimplemented stub, so only exclusive clients
emit the notification event. -/
def opChanged (s : CamState) (cid : Nat) (op : Int) (res : AppOpsMode)
    (callingPid : Int) : CamState × List Event :=
  match s.clients[cid]? with
  | none => (s, [])
  | some c =>
    if c.alive = false then (s, [])
    else if op ≠ OP_CAMERA then (s, [])
    else if res = AppOpsMode.allowed then (s, [])
    else
      let s1 := { s with clients := modifyClient s.clients cid (pidUpdate callingPid) }
      if c.isPro then
        let r := proClientDisconnect s1 cid
        (r.1, [Event.setClientPid callingPid] ++ r.2)
      else
        let r := clientDisconnect s1 cid
        (r.1, [Event.setClientPid callingPid, Event.notifyError c.remote] ++ r.2)

/-- `CameraService::binderDied`: look up a live client by the dead remote
(`getClientByRemote`, which scans only the exclusive `mClient[]` table); if
none is found the death was already cleaned up (no-op), otherwise invoke the
found client's `disconnect()`. -/
def binderDied (s : CamState) (who : Nat) : CamState × List Event :=
  let s1 := (getClientByRemote s who).1
  match (getClientByRemote s who).2 with
  | none => (s1, [])
  | some ir => clientDisconnect s1 ir.2

/-- The arguments of one `CameraService::connect` call, together with the
outcomes of the external calls it makes: `initOk` is whether the constructed
client's `initialize(mModule)` (subclass code) returns OK, and
`loadOk1`/`loadOk2` are the `newMediaPlayer` outcomes inside `loadSound`. -/
structure ConnectArgs where
  remote : Nat
  cameraId : Int
  clientPackageName : String
  clientUid : Int
  callingPid : Int
  callingUid : Int
  initOk : Bool
  loadOk1 : Bool
  loadOk2 : Bool
deriving DecidableEq, Repr

/-- The `Client` record the `CameraClient`/`Camera2Client` constructor chain
builds: `BasicClient::BasicClient` stores the identity fields, `mOpsActive`
and `mDestructionStarted` start false, and the fresh object is alive with one
strong reference. -/
def newClient (s : CamState) (a : ConnectArgs) (uid : Int) (v : ClientVariant)
    (facing : Int) : ClientObj :=
  { remote := a.remote, cameraId := a.cameraId, cameraFacing := facing,
    variant := v, isPro := false, clientPid := a.callingPid, clientUid := uid,
    packageName := a.clientPackageName, servicePid := s.servicePid,
    opsActive := false, destructionStarted := false,
    alive := true, destroyed := false, disconnected := false }

/-- The tail of `CameraService::connect` after the version switch chose a
variant: construct the `Client` (its constructor body runs
`setCameraBusy(cameraId)` then `loadSound()`), then `initialize`; on failure
return NULL, which drops the only strong reference so `~Client` runs
immediately; on success link the death notification and publish the new
handle into `mClient[cameraId]`. -/
def connectFinish (s : CamState) (a : ConnectArgs) (uid : Int)
    (v : ClientVariant) (facing : Int) : CamState × Option Nat :=
  let cid := s.clients.length
  let c := newClient s a uid v facing
  let s1 := { s with clients := s.clients ++ [c] }
  let s2 := setCameraBusy s1 a.cameraId
  let s3 := (loadSound s2 a.loadOk1 a.loadOk2).1
  if a.initOk then
    ({ s3 with slot := s3.slot.set a.cameraId.toNat (some cid) }, some cid)
  else
    let s4 := { s3 with clients := modifyClient s3.clients cid deadUpdate }
    ((runClientDestructor s4 cid).1, none)

/-- The locked tail of `CameraService::connect` once the slot holds no live
client: reject while `mBusy[cameraId]` is still set (transitional teardown
race), otherwise dispatch on `getDeviceVersion`: 1.0 constructs the legacy
`CameraClient`, 2.0/2.1 the modern `Camera2Client`, `-1` (invalid) and every
other version are rejected with NULL. -/
def connectLocked (s : CamState) (m : CameraModule) (a : ConnectArgs)
    (uid : Int) : CamState × Option Nat :=
  if s.busy.getD a.cameraId.toNat false then (s, none)
  else
    let dv := (getDeviceVersion m a.cameraId).1
    let facing := ((getDeviceVersion m a.cameraId).2).getD (-1)
    if dv = CAMERA_DEVICE_API_VERSION_1_0 then
      connectFinish s a uid ClientVariant.cameraClient facing
    else if dv = CAMERA_DEVICE_API_VERSION_2_0 ∨ dv = CAMERA_DEVICE_API_VERSION_2_1 then
      connectFinish s a uid ClientVariant.camera2Client facing
    else (s, none)

/-- `CameraService::connect` (the exclusive-client entry point): resolve the
effective uid (only the service's own process may forward one), require a
loaded module, a valid id and the policy property unset; then, under the
service lock, an existing live owner short-circuits the call — the same
remote endpoint gets the same handle back, a different one is rejected — a
stale weak entry is cleared, and the remaining path is `connectLocked`.
Returns the possibly-updated state and the handle (`none` = NULL). -/
def connect (s : CamState) (a : ConnectArgs) : CamState × Option Nat :=
  let uid := if a.clientUid = USE_CALLING_UID then a.callingUid else a.clientUid
  if a.clientUid ≠ USE_CALLING_UID ∧ a.callingPid ≠ s.servicePid then (s, none)
  else
    match s.module with
    | none => (s, none)
    | some m =>
      if a.cameraId < 0 ∨ s.numberOfCameras ≤ a.cameraId then (s, none)
      else if s.disabledProp then (s, none)
      else
        match s.slot.getD a.cameraId.toNat none with
        | some cid =>
          match s.clients[cid]? with
          | some c =>
            if c.alive then
              if c.remote = a.remote then (s, some cid)
              else (s, none)
            else
              connectLocked { s with slot := s.slot.set a.cameraId.toNat none } m a uid
          | none =>
            connectLocked { s with slot := s.slot.set a.cameraId.toNat none } m a uid
        | none => connectLocked s m a uid

/-- The `ProClient` record the `ProCamera2Client` constructor chain builds:
the source passes an empty package name and the literal `USE_CALLING_UID` as
the client uid. -/
def newProClient (s : CamState) (remote : Nat) (cameraId : Int)
    (callingPid : Int) (facing : Int) : ClientObj :=
  { remote := remote, cameraId := cameraId, cameraFacing := facing,
    variant := ClientVariant.proCamera2Client, isPro := true,
    clientPid := callingPid, clientUid := USE_CALLING_UID,
    packageName := "", servicePid := s.servicePid,
    opsActive := false, destructionStarted := false,
    alive := true, destroyed := false, disconnected := false }

/-- The tail of the pro-camera `connect` overload for a supported device
version: construct the `ProCamera2Client` (plain `BasicClient` construction,
no busy bit, no sound refcount), `initialize`, then push the weak reference
onto `mProClientList[cameraId]` and link the death notification. -/
def connectProFinish (s : CamState) (remote : Nat) (cameraId : Int)
    (callingPid : Int) (facing : Int) (initOk : Bool) : CamState × Option Nat :=
  let cid := s.clients.length
  let c := newProClient s remote cameraId callingPid facing
  let s1 := { s with clients := s.clients ++ [c] }
  if initOk then
    let pl := (s1.proClients.getD cameraId.toNat []) ++ [cid]
    let s2 := { s1 with proClients := s1.proClients.set cameraId.toNat pl }
    (s2, some cid)
  else
    let s3 := { s1 with clients := modifyClient s1.clients cid deadUpdate }
    ((runProClientDestructor s3 cid).1, none)

/-- `CameraService::connect` (the `IProCameraUser` overload): module, id and
policy-property checks, then the version switch — HAL1 devices do not
support ProCamera, 2.0/2.1 construct a `ProCamera2Client`, everything else
is rejected.  No ownership or busy check: multiple observers may coexist. -/
def connectPro (s : CamState) (remote : Nat) (cameraId : Int)
    (callingPid : Int) (initOk : Bool) : CamState × Option Nat :=
  match s.module with
  | none => (s, none)
  | some m =>
    if cameraId < 0 ∨ s.numberOfCameras ≤ cameraId then (s, none)
    else if s.disabledProp then (s, none)
    else
      let dv := (getDeviceVersion m cameraId).1
      let facing := ((getDeviceVersion m cameraId).2).getD (-1)
      if dv = CAMERA_DEVICE_API_VERSION_1_0 then (s, none)
      else if dv = CAMERA_DEVICE_API_VERSION_2_0 ∨ dv = CAMERA_DEVICE_API_VERSION_2_1 then
        connectProFinish s remote cameraId callingPid facing initOk
      else (s, none)

/-- `CameraService::CameraService` followed by `onFirstRef`: `mSoundRef = 0`,
no players loaded; a failed `hw_get_module` leaves no module and zero
cameras, otherwise the HAL count is clamped down to `MAX_CAMERAS` and every
slot starts free. -/
def initState (mod : Option CameraModule) (servicePid : Int) : CamState :=
  let n : Int :=
    match mod with
    | none => 0
    | some m =>
      if MAX_CAMERAS < m.halNumberOfCameras then MAX_CAMERAS else m.halNumberOfCameras
  { module := mod, numberOfCameras := n,
    busy := List.replicate MAX_CAMERAS.toNat false,
    slot := List.replicate MAX_CAMERAS.toNat none,
    proClients := List.replicate MAX_CAMERAS.toNat [],
    clients := [], soundRef := 0, soundLoaded := [false, false],
    servicePid := servicePid, disabledProp := false }

/-- One atomic service transition: a public entry point running to
completion, a strong-reference-count event, or the environment toggling the
policy property. -/
inductive Op where
  | connect (a : ConnectArgs)
  | connectPro (remote : Nat) (cameraId : Int) (callingPid : Int) (initOk : Bool)
  | binderDied (remote : Nat)
  | dropStrongRef (cid : Nat)
  | runDestructor (cid : Nat)
  | opChanged (cid : Nat) (op : Int) (res : AppOpsMode) (callingPid : Int)
  | setDisabled (b : Bool)
deriving DecidableEq, Repr

/-- Apply one transition.  `dropStrongRef` marks the last strong reference
gone (weak promotions start failing); `runDestructor` runs the destructor
body of a client whose strong references are gone and whose destructor has
not run yet — the gap between the two transitions is the teardown race
window the busy bit protects. -/
def applyOp (s : CamState) (o : Op) : CamState :=
  match o with
  | Op.connect a => (connect s a).1
  | Op.connectPro r cameraId pid ok => (connectPro s r cameraId pid ok).1
  | Op.binderDied r => (binderDied s r).1
  | Op.dropStrongRef cid =>
    { s with clients := modifyClient s.clients cid deadUpdate }
  | Op.runDestructor cid =>
    match s.clients[cid]? with
    | some c =>
      if c.alive = false ∧ c.destroyed = false then
        (if c.isPro then (runProClientDestructor s cid).1 else (runClientDestructor s cid).1)
      else s
    | none => s
  | Op.opChanged cid op res pid => (opChanged s cid op res pid).1
  | Op.setDisabled b => { s with disabledProp := b }

/-- The states the service can actually be in: an initial state (any HAL
outcome) followed by any sequence of transitions. -/
inductive Reachable : CamState → Prop where
  | init (mod : Option CameraModule) (servicePid : Int) : Reachable (initState mod servicePid)
  | step (s : CamState) (o : Op) : Reachable s → Reachable (applyOp s o)

/-- The number of currently-live exclusive clients: constructed `Client`
(non-Pro) objects whose destructor has not completed. -/
def liveExclusiveCount (s : CamState) : Nat :=
  s.clients.countP (fun c => !c.isPro && !c.destroyed)

/-- The net flag changes `~Client` leaves on the client record (used to state
the destructor's effect in one formula). -/
def destructorUpdate (x : ClientObj) : ClientObj :=
  { x with destructionStarted := true, opsActive := false, disconnected := true, destroyed := true }

/-- The net flag changes `~ProClient` leaves on the client record. -/
def proDestructorUpdate (x : ClientObj) : ClientObj :=
  { x with destructionStarted := true, disconnected := true, destroyed := true }

/-- The refcount/live-client correspondence the `SharedResourcePool` claims
are about: `mSoundRef` equals the number of live exclusive clients, and a
zero refcount means both sound players are torn down. -/
def SoundInv (s : CamState) : Prop :=
  s.soundRef = (liveExclusiveCount s : Int) ∧
  (s.soundRef = 0 → s.soundLoaded = [false, false])

/-- Slot `i` is owned by a live exclusive client whose remote endpoint is
`remote`: the declarative reading of a successful `findClientUnsafe` hit. -/
def slotOwner (clients : List ClientObj) (slots : List (Option Nat))
    (remote : Nat) (i : Nat) : Prop :=
  ∃ cid c, slots.getD i none = some cid ∧ clients[cid]? = some c ∧
    c.alive = true ∧ c.remote = remote

instance (clients : List ClientObj) (slots : List (Option Nat)) (remote : Nat) (i : Nat) :
    Decidable (slotOwner clients slots remote i) := by
  unfold slotOwner
  exact
    match slots.getD i none with
    | none => Decidable.isFalse (by simp)
    | some cid =>
      match h : clients[cid]? with
      | none => Decidable.isFalse (by simp [h])
      | some c => decidable_of_iff (c.alive = true ∧ c.remote = remote) (by simp [h])

/-- A demonstration HAL module: one camera, module API 2.0, the device
reporting device version 2.0. -/
def demoModule : CameraModule :=
  { moduleApiVersion := 0x200, halNumberOfCameras := 1,
    cameraInfos := [some { facing := 0, orientation := 90, device_version := 0x200 }] }

/-- The service state right after startup with `demoModule` loaded. -/
def demoInit : CamState := initState (some demoModule) 99

/-- A connect request from remote endpoint 7 (calling pid 10, uid 1000),
with `initialize` and both sound loads succeeding. -/
def demoArgs : ConnectArgs :=
  { remote := 7, cameraId := 0, clientPackageName := "com.example.app",
    clientUid := USE_CALLING_UID, callingPid := 10, callingUid := 1000,
    initOk := true, loadOk1 := true, loadOk2 := true }

/-- The same request from a different remote endpoint 8. -/
def demoArgs8 : ConnectArgs := { demoArgs with remote := 8 }

/-- The state after remote 7 successfully connected to camera 0. -/
def demoOwned : CamState := applyOp demoInit (Op.connect demoArgs)

/-- `demoOwned` after the owner remote endpoint died (`binderDied`). -/
def demoAfterDeath : CamState := applyOp demoOwned (Op.binderDied 7)

/-- `demoOwned` after the last strong reference to the client dropped, but
before the destructor has run: the busy-race window. -/
def demoDropped : CamState := applyOp demoOwned (Op.dropStrongRef 0)

/-- The state after a ProCamera observer connected from remote 5. -/
def demoPro : CamState := applyOp demoInit (Op.connectPro 5 0 20 true)

/-- A HAL module whose `get_number_of_cameras()` answers a negative count. -/
def demoNegModule : CameraModule :=
  { moduleApiVersion := 0x200, halNumberOfCameras := -1, cameraInfos := [] }

/-! ### Basic lemmas about the allocation-list helper -/

theorem modifyClient_length (l : List ClientObj) (i : Nat) (f : ClientObj → ClientObj) :
    (modifyClient l i f).length = l.length := by
  induction l generalizing i with
  | nil => rfl
  | cons c rest ih =>
    cases i with
    | zero => rfl
    | succ n => simpa [modifyClient] using ih n

theorem getElem?_modifyClient_self (l : List ClientObj) (i : Nat) (f : ClientObj → ClientObj)
    (c : ClientObj) (hc : l[i]? = some c) : (modifyClient l i f)[i]? = some (f c) := by
  induction l generalizing i with
  | nil => simp at hc
  | cons d rest ih =>
    cases i with
    | zero => simp_all [modifyClient]
    | succ n => simpa [modifyClient] using ih n (by simpa using hc)

theorem getElem?_modifyClient_ne (l : List ClientObj) (i j : Nat) (f : ClientObj → ClientObj)
    (h : i ≠ j) : (modifyClient l i f)[j]? = l[j]? := by
  induction l generalizing i j with
  | nil => rfl
  | cons d rest ih =>
    cases i with
    | zero =>
      cases j with
      | zero => exact absurd rfl h
      | succ m => simp [modifyClient]
    | succ n =>
      cases j with
      | zero => simp [modifyClient]
      | succ m => simpa [modifyClient] using ih n m (by omega)

theorem modifyClient_modifyClient (l : List ClientObj) (i : Nat)
    (f g : ClientObj → ClientObj) :
    modifyClient (modifyClient l i f) i g = modifyClient l i (fun x => g (f x)) := by
  induction l generalizing i with
  | nil => rfl
  | cons d rest ih =>
    cases i with
    | zero => rfl
    | succ n => simpa [modifyClient] using ih n

theorem modifyClient_of_oob (l : List ClientObj) (i : Nat) (f : ClientObj → ClientObj)
    (h : l.length ≤ i) : modifyClient l i f = l := by
  induction l generalizing i with
  | nil => rfl
  | cons d rest ih =>
    cases i with
    | zero => simp at h
    | succ n => simpa [modifyClient] using ih n (by simpa using h)

theorem modifyClient_fix (l : List ClientObj) (i : Nat) (f : ClientObj → ClientObj)
    (c : ClientObj) (hc : l[i]? = some c) (hf : f c = c) : modifyClient l i f = l := by
  induction l generalizing i with
  | nil => rfl
  | cons d rest ih =>
    cases i with
    | zero =>
      have : d = c := by simpa using hc
      subst this
      simp [modifyClient, hf]
    | succ n => simp [modifyClient, ih n (by simpa using hc)]

theorem countP_modifyClient_congr (l : List ClientObj) (i : Nat) (f : ClientObj → ClientObj)
    (p : ClientObj → Bool) (h : ∀ x, p (f x) = p x) :
    (modifyClient l i f).countP p = l.countP p := by
  induction l generalizing i with
  | nil => rfl
  | cons d rest ih =>
    cases i with
    | zero => simp [modifyClient, List.countP_cons, h]
    | succ n => simp [modifyClient, List.countP_cons, ih n]

theorem countP_modifyClient_of_getElem (l : List ClientObj) (i : Nat)
    (f : ClientObj → ClientObj) (p : ClientObj → Bool) (c : ClientObj) (hc : l[i]? = some c) :
    (modifyClient l i f).countP p + (if p c then 1 else 0) =
      l.countP p + (if p (f c) then 1 else 0) := by
  induction l generalizing i with
  | nil => simp at hc
  | cons d rest ih =>
    cases i with
    | zero =>
      have : d = c := by simpa using hc
      subst this
      simp [modifyClient, List.countP_cons]
      omega
    | succ n =>
      have := ih n (by simpa using hc)
      simp only [modifyClient, List.countP_cons]
      omega

theorem getD_set_false (l : List Bool) (i : Nat) : (l.set i false).getD i false = false := by
  rcases Nat.lt_or_ge i l.length with h | h
  · simp [List.getD_eq_getElem?_getD, List.getElem?_set_self h]
  · simp [List.getD_eq_getElem?_getD, List.set_eq_of_length_le h, List.getElem?_eq_none h]

theorem getLast?_shape {α : Type} (l m : List α) (x : α) :
    (l ++ (m ++ [x])).getLast? = some x := by
  rw [← List.append_assoc]
  exact List.getLast?_concat _

/-! ### State-shape lemmas: how each modelled function rewrites the state -/

theorem loadSound_fst (s : CamState) (ok1 ok2 : Bool) :
    (loadSound s ok1 ok2).1 =
      { s with soundRef := s.soundRef + 1,
               soundLoaded := if s.soundRef = 0 then [ok1, ok2] else s.soundLoaded } := by
  unfold loadSound
  by_cases h : s.soundRef = 0 <;> simp [h]

theorem releaseSound_fst (s : CamState) :
    (releaseSound s).1 =
      { s with soundRef := s.soundRef - 1,
               soundLoaded := if s.soundRef - 1 = 0 then [false, false] else s.soundLoaded } := by
  unfold releaseSound
  by_cases h : s.soundRef - 1 = 0 <;> simp [h]

theorem findClientUnsafe_fst (s : CamState) (r : Nat) :
    (findClientUnsafe s r).1 =
      { s with slot := (findClientGo s.clients r s.slot (List.range s.numberOfCameras.toNat)).1 } :=
  rfl

theorem findProClientUnsafe_fst (s : CamState) (r : Nat) :
    (findProClientUnsafe s r).1 =
      { s with proClients :=
          (findProGo s.clients r s.proClients none (List.range s.numberOfCameras.toNat)).1 } :=
  rfl

theorem removeClientByRemote_fst (s : CamState) (r : Nat) :
    ∃ sl pc, (removeClientByRemote s r).1 = { s with slot := sl, proClients := pc } := by
  unfold removeClientByRemote
  rcases h : (findClientUnsafe s r).2 with _ | ir
  · simp only [h]
    rcases h2 : (findProClientUnsafe (findClientUnsafe s r).1 r).2 with _ | p <;>
      simp only [h2] <;>
      exact ⟨_, _, by rw [findProClientUnsafe_fst, findClientUnsafe_fst]⟩
  · simp only [h]
    exact ⟨_, _, by rw [findClientUnsafe_fst]⟩

theorem removeClientByRemote_clients (s : CamState) (r : Nat) :
    (removeClientByRemote s r).1.clients = s.clients := by
  obtain ⟨sl, pc, h⟩ := removeClientByRemote_fst s r
  rw [h]

theorem removeClientByRemote_busy (s : CamState) (r : Nat) :
    (removeClientByRemote s r).1.busy = s.busy := by
  obtain ⟨sl, pc, h⟩ := removeClientByRemote_fst s r
  rw [h]

theorem removeClientByRemote_soundRef (s : CamState) (r : Nat) :
    (removeClientByRemote s r).1.soundRef = s.soundRef := by
  obtain ⟨sl, pc, h⟩ := removeClientByRemote_fst s r
  rw [h]

theorem removeClientByRemote_soundLoaded (s : CamState) (r : Nat) :
    (removeClientByRemote s r).1.soundLoaded = s.soundLoaded := by
  obtain ⟨sl, pc, h⟩ := removeClientByRemote_fst s r
  rw [h]

theorem removeClientByRemote_numberOfCameras (s : CamState) (r : Nat) :
    (removeClientByRemote s r).1.numberOfCameras = s.numberOfCameras := by
  obtain ⟨sl, pc, h⟩ := removeClientByRemote_fst s r
  rw [h]

theorem removeClientByRemote_module (s : CamState) (r : Nat) :
    (removeClientByRemote s r).1.module = s.module := by
  obtain ⟨sl, pc, h⟩ := removeClientByRemote_fst s r
  rw [h]

theorem removeClientByRemote_servicePid (s : CamState) (r : Nat) :
    (removeClientByRemote s r).1.servicePid = s.servicePid := by
  obtain ⟨sl, pc, h⟩ := removeClientByRemote_fst s r
  rw [h]

theorem removeClientByRemote_disabledProp (s : CamState) (r : Nat) :
    (removeClientByRemote s r).1.disabledProp = s.disabledProp := by
  obtain ⟨sl, pc, h⟩ := removeClientByRemote_fst s r
  rw [h]

theorem clientDisconnect_none (s : CamState) (cid : Nat) (h : s.clients[cid]? = none) :
    clientDisconnect s cid = (s, []) := by
  unfold clientDisconnect
  simp [h]

theorem clientDisconnect_clients (s : CamState) (cid : Nat) (c : ClientObj)
    (hc : s.clients[cid]? = some c) :
    (clientDisconnect s cid).1.clients = modifyClient s.clients cid discUpdate := by
  unfold clientDisconnect basicClientDisconnect setCameraFree
  simp [hc, removeClientByRemote_clients]

theorem clientDisconnect_busy (s : CamState) (cid : Nat) (c : ClientObj)
    (hc : s.clients[cid]? = some c) :
    (clientDisconnect s cid).1.busy = s.busy.set c.cameraId.toNat false := by
  unfold clientDisconnect basicClientDisconnect setCameraFree
  simp [hc, removeClientByRemote_busy]

theorem clientDisconnect_soundRef (s : CamState) (cid : Nat) :
    (clientDisconnect s cid).1.soundRef = s.soundRef := by
  unfold clientDisconnect basicClientDisconnect setCameraFree
  cases hc : s.clients[cid]? <;> simp [hc, removeClientByRemote_soundRef]

theorem clientDisconnect_soundLoaded (s : CamState) (cid : Nat) :
    (clientDisconnect s cid).1.soundLoaded = s.soundLoaded := by
  unfold clientDisconnect basicClientDisconnect setCameraFree
  cases hc : s.clients[cid]? <;> simp [hc, removeClientByRemote_soundLoaded]

theorem clientDisconnect_numberOfCameras (s : CamState) (cid : Nat) :
    (clientDisconnect s cid).1.numberOfCameras = s.numberOfCameras := by
  unfold clientDisconnect basicClientDisconnect setCameraFree
  cases hc : s.clients[cid]? <;> simp [hc, removeClientByRemote_numberOfCameras]

theorem clientDisconnect_module (s : CamState) (cid : Nat) :
    (clientDisconnect s cid).1.module = s.module := by
  unfold clientDisconnect basicClientDisconnect setCameraFree
  cases hc : s.clients[cid]? <;> simp [hc, removeClientByRemote_module]

theorem clientDisconnect_servicePid (s : CamState) (cid : Nat) :
    (clientDisconnect s cid).1.servicePid = s.servicePid := by
  unfold clientDisconnect basicClientDisconnect setCameraFree
  cases hc : s.clients[cid]? <;> simp [hc, removeClientByRemote_servicePid]

theorem clientDisconnect_disabledProp (s : CamState) (cid : Nat) :
    (clientDisconnect s cid).1.disabledProp = s.disabledProp := by
  unfold clientDisconnect basicClientDisconnect setCameraFree
  cases hc : s.clients[cid]? <;> simp [hc, removeClientByRemote_disabledProp]

theorem clientDisconnect_snd (s : CamState) (cid : Nat) (c : ClientObj)
    (hc : s.clients[cid]? = some c) :
    (clientDisconnect s cid).2 =
      (removeClientByRemote s c.remote).2 ++ [Event.setCameraFree c.cameraId] := by
  unfold clientDisconnect basicClientDisconnect
  simp [hc]

theorem proClientDisconnect_none (s : CamState) (cid : Nat) (h : s.clients[cid]? = none) :
    proClientDisconnect s cid = (s, []) := by
  unfold proClientDisconnect
  simp [h]

theorem proClientDisconnect_clients (s : CamState) (cid : Nat) (c : ClientObj)
    (hc : s.clients[cid]? = some c) :
    (proClientDisconnect s cid).1.clients = modifyClient s.clients cid discUpdate := by
  unfold proClientDisconnect basicClientDisconnect
  simp [hc, removeClientByRemote_clients]

theorem proClientDisconnect_busy (s : CamState) (cid : Nat) :
    (proClientDisconnect s cid).1.busy = s.busy := by
  unfold proClientDisconnect basicClientDisconnect
  cases hc : s.clients[cid]? <;> simp [hc, removeClientByRemote_busy]

theorem proClientDisconnect_soundRef (s : CamState) (cid : Nat) :
    (proClientDisconnect s cid).1.soundRef = s.soundRef := by
  unfold proClientDisconnect basicClientDisconnect
  cases hc : s.clients[cid]? <;> simp [hc, removeClientByRemote_soundRef]

theorem proClientDisconnect_soundLoaded (s : CamState) (cid : Nat) :
    (proClientDisconnect s cid).1.soundLoaded = s.soundLoaded := by
  unfold proClientDisconnect basicClientDisconnect
  cases hc : s.clients[cid]? <;> simp [hc, removeClientByRemote_soundLoaded]

theorem proClientDisconnect_numberOfCameras (s : CamState) (cid : Nat) :
    (proClientDisconnect s cid).1.numberOfCameras = s.numberOfCameras := by
  unfold proClientDisconnect basicClientDisconnect
  cases hc : s.clients[cid]? <;> simp [hc, removeClientByRemote_numberOfCameras]

theorem proClientDisconnect_module (s : CamState) (cid : Nat) :
    (proClientDisconnect s cid).1.module = s.module := by
  unfold proClientDisconnect basicClientDisconnect
  cases hc : s.clients[cid]? <;> simp [hc, removeClientByRemote_module]

theorem proClientDisconnect_servicePid (s : CamState) (cid : Nat) :
    (proClientDisconnect s cid).1.servicePid = s.servicePid := by
  unfold proClientDisconnect basicClientDisconnect
  cases hc : s.clients[cid]? <;> simp [hc, removeClientByRemote_servicePid]

theorem proClientDisconnect_disabledProp (s : CamState) (cid : Nat) :
    (proClientDisconnect s cid).1.disabledProp = s.disabledProp := by
  unfold proClientDisconnect basicClientDisconnect
  cases hc : s.clients[cid]? <;> simp [hc, removeClientByRemote_disabledProp]

theorem finishCameraOps_clients (s : CamState) (cid : Nat) :
    (finishCameraOps s cid).1.clients = modifyClient s.clients cid opsOffUpdate := by
  unfold finishCameraOps
  cases hc : s.clients[cid]? with
  | none =>
    have : s.clients.length ≤ cid := List.getElem?_eq_none_iff.1 hc
    simp [modifyClient_of_oob _ _ _ this]
  | some c =>
    by_cases hops : c.opsActive
    · simp [hops]
    · have hfix : modifyClient s.clients cid opsOffUpdate = s.clients := by
        refine modifyClient_fix _ _ _ c hc ?_
        unfold opsOffUpdate
        cases c
        simp_all
      simp [hops, hfix]

theorem finishCameraOps_rest (s : CamState) (cid : Nat) :
    (finishCameraOps s cid).1.busy = s.busy ∧
    (finishCameraOps s cid).1.soundRef = s.soundRef ∧
    (finishCameraOps s cid).1.soundLoaded = s.soundLoaded ∧
    (finishCameraOps s cid).1.numberOfCameras = s.numberOfCameras ∧
    (finishCameraOps s cid).1.module = s.module ∧
    (finishCameraOps s cid).1.servicePid = s.servicePid ∧
    (finishCameraOps s cid).1.disabledProp = s.disabledProp := by
  unfold finishCameraOps
  cases hc : s.clients[cid]? with
  | none => simp
  | some c => by_cases hops : c.opsActive <;> simp [hops]

theorem loadSound_snd (s : CamState) (ok1 ok2 : Bool) :
    (loadSound s ok1 ok2).2 = [Event.loadSound] := by
  unfold loadSound
  by_cases h : s.soundRef = 0 <;> simp [h]

theorem releaseSound_snd (s : CamState) :
    (releaseSound s).2 = [Event.releaseSound] := by
  unfold releaseSound
  by_cases h : s.soundRef - 1 = 0 <;> simp [h]

theorem finishCameraOps_snd (s : CamState) (cid : Nat) (c : ClientObj)
    (hc : s.clients[cid]? = some c) :
    (finishCameraOps s cid).2 = [Event.stopWatchingMode] ∨
    (finishCameraOps s cid).2 = [Event.finishOp, Event.stopWatchingMode] := by
  unfold finishCameraOps
  simp only [hc]
  by_cases h : c.opsActive <;> simp [h]

theorem runClientDestructor_parts (s : CamState) (cid : Nat) (c : ClientObj)
    (hc : s.clients[cid]? = some c) :
    (runClientDestructor s cid).1.clients = modifyClient s.clients cid destructorUpdate ∧
    (runClientDestructor s cid).1.busy = s.busy.set c.cameraId.toNat false ∧
    (runClientDestructor s cid).1.soundRef = s.soundRef - 1 ∧
    (runClientDestructor s cid).1.soundLoaded =
      (if s.soundRef - 1 = 0 then [false, false] else s.soundLoaded) ∧
    (runClientDestructor s cid).1.numberOfCameras = s.numberOfCameras ∧
    (runClientDestructor s cid).1.module = s.module ∧
    (runClientDestructor s cid).1.servicePid = s.servicePid ∧
    (runClientDestructor s cid).1.disabledProp = s.disabledProp := by
  have h1 : (modifyClient s.clients cid markStartedUpdate)[cid]? = some (markStartedUpdate c) :=
    getElem?_modifyClient_self _ _ _ _ hc
  have hX : ((releaseSound { s with clients := modifyClient s.clients cid markStartedUpdate }).1).clients[cid]? = some (markStartedUpdate c) := by
    rw [releaseSound_fst]
    exact h1
  have hY : ((finishCameraOps (releaseSound { s with clients := modifyClient s.clients cid markStartedUpdate }).1 cid).1).clients[cid]? = some (opsOffUpdate (markStartedUpdate c)) := by
    rw [finishCameraOps_clients]
    exact getElem?_modifyClient_self _ _ _ _ hX
  have hrest := finishCameraOps_rest (releaseSound { s with clients := modifyClient s.clients cid markStartedUpdate }).1 cid
  simp only [releaseSound_fst] at hX hY hrest
  unfold runClientDestructor
  simp only [hc, releaseSound_fst]
  have hfun : (fun x => destroyedUpdate (discUpdate (opsOffUpdate (markStartedUpdate x)))) =
      destructorUpdate := by
    funext x
    cases x
    simp [discUpdate, opsOffUpdate, markStartedUpdate, destructorUpdate, destroyedUpdate]
  have hcam : (opsOffUpdate (markStartedUpdate c)).cameraId = c.cameraId := rfl
  refine ⟨?_, ?_, ?_, ?_, ?_, ?_, ?_, ?_⟩
  · simp only [clientDisconnect_clients _ _ _ hY, finishCameraOps_clients,
      modifyClient_modifyClient, hfun]
  · simp only [clientDisconnect_busy _ _ _ hY, hrest.1, hcam]
  · simp only [clientDisconnect_soundRef, hrest.2.1]
  · simp only [clientDisconnect_soundLoaded, hrest.2.2.1]
  · simp only [clientDisconnect_numberOfCameras, hrest.2.2.2.1]
  · simp only [clientDisconnect_module, hrest.2.2.2.2.1]
  · simp only [clientDisconnect_servicePid, hrest.2.2.2.2.2.1]
  · simp only [clientDisconnect_disabledProp, hrest.2.2.2.2.2.2]

theorem runProClientDestructor_parts (s : CamState) (cid : Nat) (c : ClientObj)
    (hc : s.clients[cid]? = some c) :
    (runProClientDestructor s cid).1.clients = modifyClient s.clients cid proDestructorUpdate ∧
    (runProClientDestructor s cid).1.busy = s.busy ∧
    (runProClientDestructor s cid).1.soundRef = s.soundRef ∧
    (runProClientDestructor s cid).1.soundLoaded = s.soundLoaded ∧
    (runProClientDestructor s cid).1.numberOfCameras = s.numberOfCameras ∧
    (runProClientDestructor s cid).1.module = s.module ∧
    (runProClientDestructor s cid).1.servicePid = s.servicePid ∧
    (runProClientDestructor s cid).1.disabledProp = s.disabledProp := by
  have hX : ({ s with clients := modifyClient s.clients cid markStartedUpdate } : CamState).clients[cid]? = some (markStartedUpdate c) :=
    getElem?_modifyClient_self _ _ _ _ hc
  have hfun : (fun x => destroyedUpdate (discUpdate (markStartedUpdate x))) =
      proDestructorUpdate := by
    funext x
    cases x
    simp [discUpdate, markStartedUpdate, proDestructorUpdate, destroyedUpdate]
  unfold runProClientDestructor
  simp only [hc]
  refine ⟨?_, ?_, ?_, ?_, ?_, ?_, ?_, ?_⟩
  · simp only [proClientDisconnect_clients _ _ _ hX, modifyClient_modifyClient, hfun]
  · simp only [proClientDisconnect_busy]
  · simp only [proClientDisconnect_soundRef]
  · simp only [proClientDisconnect_soundLoaded]
  · simp only [proClientDisconnect_numberOfCameras]
  · simp only [proClientDisconnect_module]
  · simp only [proClientDisconnect_servicePid]
  · simp only [proClientDisconnect_disabledProp]

theorem runClientDestructor_snd (s : CamState) (cid : Nat) (c : ClientObj)
    (hc : s.clients[cid]? = some c) :
    ∃ finishEvs removeEvs,
      (finishEvs = [Event.stopWatchingMode] ∨
        finishEvs = [Event.finishOp, Event.stopWatchingMode]) ∧
      (runClientDestructor s cid).2 =
        Event.markDestructionStarted :: Event.releaseSound ::
          (finishEvs ++ (removeEvs ++ [Event.setCameraFree c.cameraId])) := by
  have h1 : (modifyClient s.clients cid markStartedUpdate)[cid]? = some (markStartedUpdate c) :=
    getElem?_modifyClient_self _ _ _ _ hc
  have hX : ((releaseSound { s with clients := modifyClient s.clients cid markStartedUpdate }).1).clients[cid]? = some (markStartedUpdate c) := by
    rw [releaseSound_fst]
    exact h1
  have hY : ((finishCameraOps (releaseSound { s with clients := modifyClient s.clients cid markStartedUpdate }).1 cid).1).clients[cid]? = some (opsOffUpdate (markStartedUpdate c)) := by
    rw [finishCameraOps_clients]
    exact getElem?_modifyClient_self _ _ _ _ hX
  have hcam : (opsOffUpdate (markStartedUpdate c)).cameraId = c.cameraId := rfl
  have hsnd := clientDisconnect_snd _ _ _ hY
  have hfin := finishCameraOps_snd _ _ _ hX
  have heq : (runClientDestructor s cid).2 = Event.markDestructionStarted :: Event.releaseSound :: ((finishCameraOps (releaseSound { s with clients := modifyClient s.clients cid markStartedUpdate }).1 cid).2 ++ ((removeClientByRemote (finishCameraOps (releaseSound { s with clients := modifyClient s.clients cid markStartedUpdate }).1 cid).1 (opsOffUpdate (markStartedUpdate c)).remote).2 ++ [Event.setCameraFree c.cameraId])) := by
    unfold runClientDestructor
    simp [hc, releaseSound_snd, hsnd, hcam]
  exact ⟨_, _, hfin, heq⟩

theorem runClientDestructor_reg (s : CamState) (cid : Nat) :
    (runClientDestructor s cid).1.numberOfCameras = s.numberOfCameras ∧
    (runClientDestructor s cid).1.module = s.module ∧
    (runClientDestructor s cid).1.servicePid = s.servicePid := by
  cases hc : s.clients[cid]? with
  | none => unfold runClientDestructor; simp [hc]
  | some c =>
    have h := runClientDestructor_parts s cid c hc
    exact ⟨h.2.2.2.2.1, h.2.2.2.2.2.1, h.2.2.2.2.2.2.1⟩

theorem runProClientDestructor_reg (s : CamState) (cid : Nat) :
    (runProClientDestructor s cid).1.numberOfCameras = s.numberOfCameras ∧
    (runProClientDestructor s cid).1.module = s.module ∧
    (runProClientDestructor s cid).1.servicePid = s.servicePid := by
  cases hc : s.clients[cid]? with
  | none => unfold runProClientDestructor; simp [hc]
  | some c =>
    have h := runProClientDestructor_parts s cid c hc
    exact ⟨h.2.2.2.2.1, h.2.2.2.2.2.1, h.2.2.2.2.2.2.1⟩

theorem liveExclusiveCount_clientDisconnect (s : CamState) (cid : Nat) :
    liveExclusiveCount (clientDisconnect s cid).1 = liveExclusiveCount s := by
  cases hc : s.clients[cid]? with
  | none => rw [clientDisconnect_none _ _ hc]
  | some c =>
    unfold liveExclusiveCount
    rw [clientDisconnect_clients _ _ _ hc]
    exact countP_modifyClient_congr _ _ _ _ (fun x => by simp [discUpdate])

theorem liveExclusiveCount_proClientDisconnect (s : CamState) (cid : Nat) :
    liveExclusiveCount (proClientDisconnect s cid).1 = liveExclusiveCount s := by
  cases hc : s.clients[cid]? with
  | none => rw [proClientDisconnect_none _ _ hc]
  | some c =>
    unfold liveExclusiveCount
    rw [proClientDisconnect_clients _ _ _ hc]
    exact countP_modifyClient_congr _ _ _ _ (fun x => by simp [discUpdate])

theorem soundInv_clientDisconnect (s : CamState) (cid : Nat) (h : SoundInv s) :
    SoundInv (clientDisconnect s cid).1 := by
  unfold SoundInv at h ⊢
  rw [clientDisconnect_soundRef, clientDisconnect_soundLoaded, liveExclusiveCount_clientDisconnect]
  exact h

theorem soundInv_proClientDisconnect (s : CamState) (cid : Nat) (h : SoundInv s) :
    SoundInv (proClientDisconnect s cid).1 := by
  unfold SoundInv at h ⊢
  rw [proClientDisconnect_soundRef, proClientDisconnect_soundLoaded,
    liveExclusiveCount_proClientDisconnect]
  exact h

theorem soundInv_binderDied (s : CamState) (who : Nat) (h : SoundInv s) :
    SoundInv (binderDied s who).1 := by
  unfold binderDied
  cases hf : (getClientByRemote s who).2 with
  | none => exact h
  | some ir => exact soundInv_clientDisconnect _ _ h

theorem soundInv_runClientDestructor (s : CamState) (cid : Nat) (c : ClientObj)
    (hc : s.clients[cid]? = some c) (hpro : c.isPro = false) (hdes : c.destroyed = false)
    (h : SoundInv s) : SoundInv (runClientDestructor s cid).1 := by
  obtain ⟨h1, h2⟩ := h
  have hp := runClientDestructor_parts s cid c hc
  have hcnt := countP_modifyClient_of_getElem s.clients cid destructorUpdate
    (fun x => !x.isPro && !x.destroyed) c hc
  simp only [hpro, hdes, destructorUpdate, Bool.not_false, Bool.not_true, Bool.and_self,
    Bool.false_and, Bool.and_false, if_true, if_false, Bool.false_eq_true, reduceIte] at hcnt
  constructor
  · rw [hp.2.2.1]
    unfold liveExclusiveCount
    rw [hp.1]
    unfold liveExclusiveCount at h1
    omega
  · intro hz
    rw [hp.2.2.1] at hz
    rw [hp.2.2.2.1]
    simp [hz]

theorem soundInv_runProClientDestructor (s : CamState) (cid : Nat) (c : ClientObj)
    (hc : s.clients[cid]? = some c) (hpro : c.isPro = true)
    (h : SoundInv s) : SoundInv (runProClientDestructor s cid).1 := by
  obtain ⟨h1, h2⟩ := h
  have hp := runProClientDestructor_parts s cid c hc
  have hcnt := countP_modifyClient_of_getElem s.clients cid proDestructorUpdate
    (fun x => !x.isPro && !x.destroyed) c hc
  simp only [hpro, proDestructorUpdate, Bool.not_true, Bool.false_and, Bool.false_eq_true,
    reduceIte] at hcnt
  constructor
  · rw [hp.2.2.1]
    unfold liveExclusiveCount
    rw [hp.1]
    unfold liveExclusiveCount at h1
    omega
  · intro hz
    rw [hp.2.2.1] at hz
    rw [hp.2.2.2.1]
    exact h2 hz

theorem runClientDestructor_numberOfCameras (s : CamState) (cid : Nat) :
    (runClientDestructor s cid).1.numberOfCameras = s.numberOfCameras :=
  (runClientDestructor_reg s cid).1

theorem runClientDestructor_module (s : CamState) (cid : Nat) :
    (runClientDestructor s cid).1.module = s.module :=
  (runClientDestructor_reg s cid).2.1

theorem runClientDestructor_servicePid (s : CamState) (cid : Nat) :
    (runClientDestructor s cid).1.servicePid = s.servicePid :=
  (runClientDestructor_reg s cid).2.2

theorem runProClientDestructor_numberOfCameras (s : CamState) (cid : Nat) :
    (runProClientDestructor s cid).1.numberOfCameras = s.numberOfCameras :=
  (runProClientDestructor_reg s cid).1

theorem runProClientDestructor_module (s : CamState) (cid : Nat) :
    (runProClientDestructor s cid).1.module = s.module :=
  (runProClientDestructor_reg s cid).2.1

theorem runProClientDestructor_servicePid (s : CamState) (cid : Nat) :
    (runProClientDestructor s cid).1.servicePid = s.servicePid :=
  (runProClientDestructor_reg s cid).2.2

theorem soundInv_modify_congr (s : CamState) (cid : Nat) (f : ClientObj → ClientObj)
    (hp : ∀ x, (!(f x).isPro && !(f x).destroyed) = (!x.isPro && !x.destroyed))
    (h : SoundInv s) : SoundInv { s with clients := modifyClient s.clients cid f } := by
  obtain ⟨h1, h2⟩ := h
  refine ⟨?_, ?_⟩
  · show s.soundRef = ((modifyClient s.clients cid f).countP _ : Int)
    rw [countP_modifyClient_congr _ _ _ _ hp]
    exact h1
  · exact h2

theorem soundInv_opChanged (s : CamState) (cid : Nat) (op : Int) (res : AppOpsMode)
    (pid : Int) (h : SoundInv s) : SoundInv (opChanged s cid op res pid).1 := by
  have hmid : SoundInv { s with clients := modifyClient s.clients cid (pidUpdate pid) } :=
    soundInv_modify_congr s cid (pidUpdate pid) (fun x => by simp [pidUpdate]) h
  unfold opChanged
  cases hc : s.clients[cid]? with
  | none => exact h
  | some c =>
    simp only []
    by_cases ha : c.alive = false
    · rw [if_pos ha]; exact h
    · rw [if_neg ha]
      by_cases hop : op ≠ OP_CAMERA
      · rw [if_pos hop]; exact h
      · rw [if_neg hop]
        by_cases hres : res = AppOpsMode.allowed
        · rw [if_pos hres]; exact h
        · rw [if_neg hres]
          by_cases hp : c.isPro = true
          · rw [if_pos hp]
            exact soundInv_proClientDisconnect _ _ hmid
          · rw [if_neg hp]
            exact soundInv_clientDisconnect _ _ hmid

theorem connect_cases (s : CamState) (a : ConnectArgs) :
    (connect s a).1 = s ∨
    ∃ m uid sl, (connect s a).1 = (connectLocked { s with slot := sl } m a uid).1 := by
  unfold connect
  repeat' first
    | exact Or.inl rfl
    | exact Or.inr ⟨_, _, _, rfl⟩
    | split

theorem connectLocked_cases (s : CamState) (m : CameraModule) (a : ConnectArgs) (uid : Int) :
    (connectLocked s m a uid).1 = s ∨
    ∃ v facing, (connectLocked s m a uid).1 = (connectFinish s a uid v facing).1 := by
  unfold connectLocked
  simp only []
  repeat' first
    | exact Or.inl rfl
    | exact Or.inr ⟨_, _, rfl⟩
    | split

theorem connectPro_cases (s : CamState) (r : Nat) (cameraId : Int) (pid : Int) (ok : Bool) :
    (connectPro s r cameraId pid ok).1 = s ∨
    ∃ facing, (connectPro s r cameraId pid ok).1 =
      (connectProFinish s r cameraId pid facing ok).1 := by
  unfold connectPro
  simp only []
  repeat' first
    | exact Or.inl rfl
    | exact Or.inr ⟨_, rfl⟩
    | split

theorem connectFinish_soundInv (s : CamState) (a : ConnectArgs) (uid : Int)
    (v : ClientVariant) (facing : Int) (h : SoundInv s) :
    SoundInv (connectFinish s a uid v facing).1 := by
  obtain ⟨h1, h2⟩ := h
  unfold liveExclusiveCount at h1
  have hcount : (s.clients ++ [newClient s a uid v facing]).countP
      (fun c => !c.isPro && !c.destroyed) =
      s.clients.countP (fun c => !c.isPro && !c.destroyed) + 1 := by
    simp [List.countP_append, List.countP_cons, newClient]
  unfold connectFinish
  cases hi : a.initOk with
  | true =>
    simp only [reduceIte]
    refine ⟨?_, ?_⟩
    · simp only [liveExclusiveCount, loadSound_fst, setCameraBusy]
      rw [hcount]
      push_cast
      omega
    · intro hz
      exfalso
      simp only [loadSound_fst, setCameraBusy] at hz
      omega
  | false =>
    simp only [Bool.false_eq_true, reduceIte, loadSound_fst, setCameraBusy]
    refine soundInv_runClientDestructor _ _ (deadUpdate (newClient s a uid v facing))
      (getElem?_modifyClient_self _ _ _ _ (List.getElem?_concat_length _ _)) rfl rfl ⟨?_, ?_⟩
    · simp only [liveExclusiveCount]
      rw [countP_modifyClient_congr _ _ _ _ (fun x => by simp [deadUpdate]), hcount]
      push_cast
      omega
    · intro hz
      exfalso
      simp only at hz
      omega

theorem connectFinish_reg (s : CamState) (a : ConnectArgs) (uid : Int)
    (v : ClientVariant) (facing : Int) :
    (connectFinish s a uid v facing).1.numberOfCameras = s.numberOfCameras ∧
    (connectFinish s a uid v facing).1.module = s.module ∧
    (connectFinish s a uid v facing).1.servicePid = s.servicePid := by
  unfold connectFinish
  cases hi : a.initOk with
  | true => simp [reduceIte, loadSound_fst, setCameraBusy]
  | false =>
    simp only [Bool.false_eq_true, reduceIte, loadSound_fst, setCameraBusy]
    refine ⟨?_, ?_, ?_⟩
    · rw [runClientDestructor_numberOfCameras]
    · rw [runClientDestructor_module]
    · rw [runClientDestructor_servicePid]

theorem connectProFinish_soundInv (s : CamState) (r : Nat) (cameraId : Int) (pid : Int)
    (facing : Int) (ok : Bool) (h : SoundInv s) :
    SoundInv (connectProFinish s r cameraId pid facing ok).1 := by
  obtain ⟨h1, h2⟩ := h
  unfold liveExclusiveCount at h1
  have hcount : (s.clients ++ [newProClient s r cameraId pid facing]).countP
      (fun c => !c.isPro && !c.destroyed) =
      s.clients.countP (fun c => !c.isPro && !c.destroyed) := by
    simp [List.countP_append, List.countP_cons, newProClient]
  unfold connectProFinish
  cases hi : ok with
  | true =>
    simp only [reduceIte]
    refine ⟨?_, ?_⟩
    · simp only [liveExclusiveCount]
      rw [hcount]
      exact h1
    · intro hz
      exact h2 hz
  | false =>
    simp only [Bool.false_eq_true, reduceIte]
    refine soundInv_runProClientDestructor _ _
      (deadUpdate (newProClient s r cameraId pid facing))
      (getElem?_modifyClient_self _ _ _ _ (List.getElem?_concat_length _ _)) rfl ⟨?_, ?_⟩
    · simp only [liveExclusiveCount]
      rw [countP_modifyClient_congr _ _ _ _ (fun x => by simp [deadUpdate]), hcount]
      exact h1
    · intro hz
      exact h2 hz

theorem connectProFinish_reg (s : CamState) (r : Nat) (cameraId : Int) (pid : Int)
    (facing : Int) (ok : Bool) :
    (connectProFinish s r cameraId pid facing ok).1.numberOfCameras = s.numberOfCameras ∧
    (connectProFinish s r cameraId pid facing ok).1.module = s.module ∧
    (connectProFinish s r cameraId pid facing ok).1.servicePid = s.servicePid := by
  unfold connectProFinish
  cases hi : ok with
  | true => simp [reduceIte]
  | false =>
    simp only [Bool.false_eq_true, reduceIte]
    refine ⟨?_, ?_, ?_⟩
    · rw [runProClientDestructor_numberOfCameras]
    · rw [runProClientDestructor_module]
    · rw [runProClientDestructor_servicePid]

theorem soundInv_applyOp (s : CamState) (o : Op) (h : SoundInv s) : SoundInv (applyOp s o) := by
  cases o with
  | connect a =>
    show SoundInv (connect s a).1
    rcases connect_cases s a with hcs | ⟨m, uid, sl, hcs⟩
    · rw [hcs]; exact h
    · rw [hcs]
      rcases connectLocked_cases { s with slot := sl } m a uid with hcl | ⟨v, facing, hcl⟩
      · rw [hcl]; exact h
      · rw [hcl]; exact connectFinish_soundInv _ _ _ _ _ h
  | connectPro r cameraId pid ok =>
    show SoundInv (connectPro s r cameraId pid ok).1
    rcases connectPro_cases s r cameraId pid ok with hcs | ⟨facing, hcs⟩
    · rw [hcs]; exact h
    · rw [hcs]; exact connectProFinish_soundInv _ _ _ _ _ _ h
  | binderDied r => exact soundInv_binderDied s r h
  | dropStrongRef cid =>
    exact soundInv_modify_congr s cid deadUpdate (fun x => by simp [deadUpdate]) h
  | runDestructor cid =>
    show SoundInv (applyOp s (Op.runDestructor cid))
    unfold applyOp
    simp only []
    cases hc : s.clients[cid]? with
    | none => exact h
    | some c =>
      simp only []
      by_cases hg : c.alive = false ∧ c.destroyed = false
      · rw [if_pos hg]
        by_cases hp : c.isPro = true
        · rw [if_pos hp]
          exact soundInv_runProClientDestructor s cid c hc hp h
        · rw [if_neg hp]
          exact soundInv_runClientDestructor s cid c hc (by simpa using hp) hg.2 h
      · rw [if_neg hg]
        exact h
  | opChanged cid op res pid => exact soundInv_opChanged s cid op res pid h
  | setDisabled b => exact h

theorem applyOp_reg (s : CamState) (o : Op) :
    (applyOp s o).numberOfCameras = s.numberOfCameras ∧
    (applyOp s o).module = s.module ∧
    (applyOp s o).servicePid = s.servicePid := by
  cases o with
  | connect a =>
    show (connect s a).1.numberOfCameras = _ ∧ (connect s a).1.module = _ ∧
      (connect s a).1.servicePid = _
    rcases connect_cases s a with hcs | ⟨m, uid, sl, hcs⟩
    · rw [hcs]; exact ⟨rfl, rfl, rfl⟩
    · rw [hcs]
      rcases connectLocked_cases { s with slot := sl } m a uid with hcl | ⟨v, facing, hcl⟩
      · rw [hcl]; exact ⟨rfl, rfl, rfl⟩
      · rw [hcl]
        exact connectFinish_reg { s with slot := sl } a uid v facing
  | connectPro r cameraId pid ok =>
    show (connectPro s r cameraId pid ok).1.numberOfCameras = _ ∧
      (connectPro s r cameraId pid ok).1.module = _ ∧
      (connectPro s r cameraId pid ok).1.servicePid = _
    rcases connectPro_cases s r cameraId pid ok with hcs | ⟨facing, hcs⟩
    · rw [hcs]; exact ⟨rfl, rfl, rfl⟩
    · rw [hcs]
      exact connectProFinish_reg s r cameraId pid facing ok
  | binderDied r =>
    show (binderDied s r).1.numberOfCameras = _ ∧ (binderDied s r).1.module = _ ∧
      (binderDied s r).1.servicePid = _
    unfold binderDied
    cases hf : (getClientByRemote s r).2 with
    | none => exact ⟨rfl, rfl, rfl⟩
    | some ir =>
      simp only []
      exact ⟨clientDisconnect_numberOfCameras _ _, clientDisconnect_module _ _,
        clientDisconnect_servicePid _ _⟩
  | dropStrongRef cid => exact ⟨rfl, rfl, rfl⟩
  | runDestructor cid =>
    show (applyOp s (Op.runDestructor cid)).numberOfCameras = _ ∧ _ ∧ _
    unfold applyOp
    simp only []
    cases hc : s.clients[cid]? with
    | none => exact ⟨rfl, rfl, rfl⟩
    | some c =>
      simp only []
      by_cases hg : c.alive = false ∧ c.destroyed = false
      · rw [if_pos hg]
        by_cases hp : c.isPro = true
        · rw [if_pos hp]
          exact runProClientDestructor_reg s cid
        · rw [if_neg hp]
          exact runClientDestructor_reg s cid
      · rw [if_neg hg]
        exact ⟨rfl, rfl, rfl⟩
  | opChanged cid op res pid =>
    show (opChanged s cid op res pid).1.numberOfCameras = _ ∧
      (opChanged s cid op res pid).1.module = _ ∧ (opChanged s cid op res pid).1.servicePid = _
    unfold opChanged
    cases hc : s.clients[cid]? with
    | none => exact ⟨rfl, rfl, rfl⟩
    | some c =>
      simp only []
      by_cases ha : c.alive = false
      · rw [if_pos ha]; exact ⟨rfl, rfl, rfl⟩
      · rw [if_neg ha]
        by_cases hop : op ≠ OP_CAMERA
        · rw [if_pos hop]; exact ⟨rfl, rfl, rfl⟩
        · rw [if_neg hop]
          by_cases hres : res = AppOpsMode.allowed
          · rw [if_pos hres]; exact ⟨rfl, rfl, rfl⟩
          · rw [if_neg hres]
            by_cases hp : c.isPro = true
            · rw [if_pos hp]
              exact ⟨proClientDisconnect_numberOfCameras _ _, proClientDisconnect_module _ _,
                proClientDisconnect_servicePid _ _⟩
            · rw [if_neg hp]
              exact ⟨clientDisconnect_numberOfCameras _ _, clientDisconnect_module _ _,
                clientDisconnect_servicePid _ _⟩
  | setDisabled b => exact ⟨rfl, rfl, rfl⟩

theorem getD_some_lt (slots : List (Option Nat)) (i : Nat) (cid : Nat)
    (h : slots.getD i none = some cid) : i < slots.length := by
  by_contra hh
  push_neg at hh
  rw [List.getD_eq_getElem?_getD, List.getElem?_eq_none hh] at h
  simp at h

theorem getD_set_none_ne (slots : List (Option Nat)) (i j : Nat) (h : i ≠ j) :
    (slots.set i none).getD j none = slots.getD j none := by
  rw [List.getD_eq_getElem?_getD, List.getD_eq_getElem?_getD, List.getElem?_set_ne h]

theorem getD_set_none_self (slots : List (Option Nat)) (i : Nat) :
    (slots.set i none).getD i none = none := by
  rcases Nat.lt_or_ge i slots.length with hlt | hge
  · rw [List.getD_eq_getElem?_getD, List.getElem?_set_self hlt]
    rfl
  · rw [List.set_eq_of_length_le hge, List.getD_eq_getElem?_getD, List.getElem?_eq_none hge]
    rfl

theorem slotOwner_set_none_of (clients : List ClientObj) (slots : List (Option Nat))
    (remote : Nat) (i j : Nat) (hne : i ≠ j)
    (h : slotOwner clients slots remote i) : slotOwner clients (slots.set j none) remote i := by
  obtain ⟨cid, c, hs, hc, hal, hr⟩ := h
  refine ⟨cid, c, ?_, hc, hal, hr⟩
  rw [getD_set_none_ne _ _ _ (Ne.symm hne)]
  exact hs

theorem findClientGo_none (clients : List ClientObj) (remote : Nat)
    (slots : List (Option Nat)) (idxs : List Nat)
    (h : (findClientGo clients remote slots idxs).2 = none) :
    ∀ i ∈ idxs, ¬ slotOwner clients slots remote i := by
  induction idxs generalizing slots with
  | nil => intro i hi; simp at hi
  | cons j rest ih =>
    intro i hi hown
    unfold findClientGo at h
    cases hs : slots.getD j none with
    | none =>
      rw [hs] at h
      rcases List.mem_cons.1 hi with he | hmem
      · subst he
        obtain ⟨cid, c, hs2, _, _, _⟩ := hown
        rw [hs] at hs2
        cases hs2
      · exact ih slots h i hmem hown
    | some cid =>
      rw [hs] at h
      simp only [] at h
      cases hcl : clients[cid]? with
      | none =>
        rw [hcl] at h
        simp only [] at h
        rcases Decidable.em (i = j) with he | hne
        · subst he
          obtain ⟨cid2, c2, hs2, hc2, _, _⟩ := hown
          rw [hs] at hs2
          cases hs2
          rw [hcl] at hc2
          cases hc2
        · exact ih (slots.set j none) h i
            (by rcases List.mem_cons.1 hi with he | hmem
                · exact absurd he hne
                · exact hmem)
            (slotOwner_set_none_of _ _ _ _ _ hne hown)
      | some c =>
        rw [hcl] at h
        simp only [] at h
        by_cases hal : c.alive = true
        · by_cases hr : c.remote = remote
          · rw [if_pos hal, if_pos hr] at h
            cases h
          · rw [if_pos hal, if_neg hr] at h
            rcases List.mem_cons.1 hi with he | hmem
            · subst he
              obtain ⟨cid2, c2, hs2, hc2, hal2, hr2⟩ := hown
              rw [hs] at hs2
              cases hs2
              rw [hcl] at hc2
              cases hc2
              exact hr hr2
            · exact ih slots h i hmem hown
        · rw [if_neg hal] at h
          rcases Decidable.em (i = j) with he | hne
          · subst he
            obtain ⟨cid2, c2, hs2, hc2, hal2, _⟩ := hown
            rw [hs] at hs2
            cases hs2
            rw [hcl] at hc2
            cases hc2
            exact hal hal2
          · exact ih (slots.set j none) h i
              (by rcases List.mem_cons.1 hi with he | hmem
                  · exact absurd he hne
                  · exact hmem)
              (slotOwner_set_none_of _ _ _ _ _ hne hown)

theorem findClientGo_some (clients : List ClientObj) (remote : Nat)
    (slots : List (Option Nat)) (idxs : List Nat) (j cid : Nat)
    (h : (findClientGo clients remote slots idxs).2 = some (j, cid)) :
    slots.getD j none = some cid ∧
    ∃ c, clients[cid]? = some c ∧ c.alive = true ∧ c.remote = remote := by
  induction idxs generalizing slots with
  | nil => simp [findClientGo] at h
  | cons i rest ih =>
    unfold findClientGo at h
    cases hs : slots.getD i none with
    | none =>
      rw [hs] at h
      exact ih slots h
    | some cid2 =>
      rw [hs] at h
      simp only [] at h
      cases hcl : clients[cid2]? with
      | none =>
        rw [hcl] at h
        simp only [] at h
        have hrec := ih (slots.set i none) h
        refine ⟨?_, hrec.2⟩
        rcases Decidable.em (j = i) with he | hne
        · subst he
          rw [getD_set_none_self] at hrec
          exact absurd hrec.1 (by simp)
        · rw [getD_set_none_ne _ _ _ (fun hh => hne hh.symm)] at hrec
          exact hrec.1
      | some c =>
        rw [hcl] at h
        simp only [] at h
        by_cases hal : c.alive = true
        · by_cases hr : c.remote = remote
          · rw [if_pos hal, if_pos hr] at h
            have hj : i = j ∧ cid2 = cid := by
              constructor <;> injection h with h1 <;> injection h1
            obtain ⟨he1, he2⟩ := hj
            subst he1
            subst he2
            exact ⟨hs, c, hcl, hal, hr⟩
          · rw [if_pos hal, if_neg hr] at h
            exact ih slots h
        · rw [if_neg hal] at h
          have hrec := ih (slots.set i none) h
          refine ⟨?_, hrec.2⟩
          rcases Decidable.em (j = i) with he | hne
          · subst he
            rw [getD_set_none_self] at hrec
            exact absurd hrec.1 (by simp)
          · rw [getD_set_none_ne _ _ _ (fun hh => hne hh.symm)] at hrec
            exact hrec.1

theorem findClientUnsafe_spec_none (s : CamState) (who : Nat)
    (h : (findClientUnsafe s who).2 = none) :
    ∀ i, i < s.numberOfCameras.toNat → ¬ slotOwner s.clients s.slot who i := by
  intro i hi
  exact findClientGo_none _ _ _ _ h i (List.mem_range.2 hi)

theorem findClientUnsafe_spec_some (s : CamState) (who : Nat) (j cid : Nat)
    (h : (findClientUnsafe s who).2 = some (j, cid)) :
    s.slot.getD j none = some cid ∧
    ∃ c, s.clients[cid]? = some c ∧ c.alive = true ∧ c.remote = who :=
  findClientGo_some _ _ _ _ _ _ h

theorem findClientGo_some_mem (clients : List ClientObj) (remote : Nat)
    (slots : List (Option Nat)) (idxs : List Nat) (j cid : Nat)
    (h : (findClientGo clients remote slots idxs).2 = some (j, cid)) : j ∈ idxs := by
  induction idxs generalizing slots with
  | nil => simp [findClientGo] at h
  | cons i rest ih =>
    unfold findClientGo at h
    cases hs : slots.getD i none with
    | none =>
      rw [hs] at h
      exact List.mem_cons_of_mem _ (ih slots h)
    | some cid2 =>
      rw [hs] at h
      simp only [] at h
      cases hcl : clients[cid2]? with
      | none =>
        rw [hcl] at h
        simp only [] at h
        exact List.mem_cons_of_mem _ (ih _ h)
      | some c =>
        rw [hcl] at h
        simp only [] at h
        by_cases hal : c.alive = true
        · by_cases hr : c.remote = remote
          · rw [if_pos hal, if_pos hr] at h
            injection h with h1
            injection h1 with h2 h3
            subst h2
            exact List.mem_cons_self _ _
          · rw [if_pos hal, if_neg hr] at h
            exact List.mem_cons_of_mem _ (ih slots h)
        · rw [if_neg hal] at h
          exact List.mem_cons_of_mem _ (ih _ h)

theorem runClientDestructor_length (s : CamState) (cid : Nat) :
    (runClientDestructor s cid).1.clients.length = s.clients.length := by
  cases hc : s.clients[cid]? with
  | none => unfold runClientDestructor; simp [hc]
  | some c => rw [(runClientDestructor_parts s cid c hc).1, modifyClient_length]

theorem runClientDestructor_variant_getElem (s : CamState) (cid j : Nat) :
    ((runClientDestructor s cid).1.clients[j]?).map ClientObj.variant =
      (s.clients[j]?).map ClientObj.variant := by
  cases hc : s.clients[cid]? with
  | none => unfold runClientDestructor; simp [hc]
  | some c =>
    rw [(runClientDestructor_parts s cid c hc).1]
    rcases Decidable.em (cid = j) with he | hne
    · subst he
      rw [getElem?_modifyClient_self _ _ _ _ hc, hc]
      rfl
    · rw [getElem?_modifyClient_ne _ _ _ _ hne]

theorem connectFinish_shape (s : CamState) (a : ConnectArgs) (uid : Int)
    (v : ClientVariant) (facing : Int) :
    (connectFinish s a uid v facing).1.clients.length = s.clients.length + 1 ∧
    ((connectFinish s a uid v facing).1.clients[s.clients.length]?).map ClientObj.variant =
      some v := by
  unfold connectFinish
  cases hi : a.initOk with
  | true =>
    simp only [reduceIte, loadSound_fst, setCameraBusy]
    refine ⟨by simp, ?_⟩
    rw [List.getElem?_concat_length]
    rfl
  | false =>
    simp only [Bool.false_eq_true, reduceIte, loadSound_fst, setCameraBusy]
    constructor
    · rw [runClientDestructor_length]
      simp [modifyClient_length]
    · rw [runClientDestructor_variant_getElem]
      simp only []
      rw [getElem?_modifyClient_self _ _ _ _ (List.getElem?_concat_length _ _)]
      rfl

/-- C1: on a slot that already holds a live exclusive client, `connect` from
the same remote endpoint returns the existing handle and leaves the whole
service state unchanged (in particular no new client is constructed and the
sound-resource refcount is not incremented), while `connect` from a
different remote endpoint returns NULL and also leaves the state unchanged,
so the existing owner is never preempted. -/
theorem connect_existing_owner (s : CamState) (a : ConnectArgs) (m : CameraModule)
    (cid : Nat) (c : ClientObj)
    (hm : s.module = some m)
    (hid0 : 0 ≤ a.cameraId) (hidn : a.cameraId < s.numberOfCameras)
    (hdis : s.disabledProp = false)
    (huid : a.clientUid = USE_CALLING_UID)
    (hslot : s.slot.getD a.cameraId.toNat none = some cid)
    (hc : s.clients[cid]? = some c)
    (halive : c.alive = true) :
    (c.remote = a.remote → connect s a = (s, some cid)) ∧
    (c.remote ≠ a.remote → connect s a = (s, none)) := by
  have h1 : ¬(a.clientUid ≠ USE_CALLING_UID ∧ a.callingPid ≠ s.servicePid) := by
    simp [huid]
  have h2 : ¬(a.cameraId < 0 ∨ s.numberOfCameras ≤ a.cameraId) := by omega
  have h3 : ¬(s.disabledProp = true) := by simp [hdis]
  constructor <;> intro hr <;>
  · unfold connect
    rw [if_neg h1, hm]
    simp only []
    rw [if_neg h2, if_neg h3, hslot]
    simp only []
    rw [hc]
    simp only []
    rw [if_pos halive]
    simp [hr]

/-- C1 witness: in the concrete owned state, reconnecting from the owner
remote 7 returns the same handle with the state unchanged, and connecting
from remote 8 is rejected with the state unchanged. -/
theorem connect_existing_owner_witness :
    connect demoOwned demoArgs = (demoOwned, some 0) ∧
    connect demoOwned demoArgs8 = (demoOwned, none) := by
  have hsame := (connect_existing_owner demoOwned demoArgs demoModule 0
    (demoOwned.clients.getD 0 (newClient demoInit demoArgs 1000 ClientVariant.camera2Client 0))
    (by decide) (by decide) (by decide) (by decide) (by decide) (by decide)
    (by decide) (by decide)).1 (by decide)
  have hdiff := (connect_existing_owner demoOwned demoArgs8 demoModule 0
    (demoOwned.clients.getD 0 (newClient demoInit demoArgs 1000 ClientVariant.camera2Client 0))
    (by decide) (by decide) (by decide) (by decide) (by decide) (by decide)
    (by decide) (by decide)).2 (by decide)
  exact ⟨hsame, hdiff⟩

/-- C4 counterexample: when the HAL module failed to load the camera count
is 0, so id 0 is outside `[0, numberOfCameras)`, yet `getCameraInfo` answers
`NO_INIT` rather than the invalid-argument error `BAD_VALUE` claimed. -/
theorem getCameraInfo_invalid_id_not_BAD_VALUE :
    ((0 : Int) < 0 ∨ (initState none 7).numberOfCameras ≤ 0) ∧
    (getCameraInfo (initState none 7) 0).1 ≠ Status.BAD_VALUE ∧
    (getCameraInfo (initState none 7) 0).1 = Status.NO_INIT := by
  refine ⟨?_, ?_, ?_⟩ <;> decide

/-- C4 (amended): for every device id outside `[0, numberOfCameras)`,
`connect` returns NULL with the service state unchanged, and the read-only
`getCameraInfo` returns the invalid-argument error `BAD_VALUE` when the HAL
module is loaded, but `NO_INIT` when the module is absent. -/
theorem connect_getCameraInfo_invalid_id (s : CamState) (a : ConnectArgs)
    (hid : a.cameraId < 0 ∨ s.numberOfCameras ≤ a.cameraId) :
    connect s a = (s, none) ∧
    (∀ m, s.module = some m → (getCameraInfo s a.cameraId).1 = Status.BAD_VALUE) ∧
    (s.module = none → (getCameraInfo s a.cameraId).1 = Status.NO_INIT) := by
  refine ⟨?_, ?_, ?_⟩
  · unfold connect
    by_cases h1 : a.clientUid ≠ USE_CALLING_UID ∧ a.callingPid ≠ s.servicePid
    · rw [if_pos h1]
    · rw [if_neg h1]
      cases hm : s.module with
      | none => rfl
      | some m =>
        simp only []
        rw [if_pos hid]
  · intro m hm
    unfold getCameraInfo
    rw [hm]
    simp only []
    rw [if_pos hid]
  · intro hm
    unfold getCameraInfo
    rw [hm]

/-- C4 witness: camera id 5 is out of range in the demo state; `connect` is
rejected without touching the state and `getCameraInfo` answers
`BAD_VALUE`. -/
theorem connect_getCameraInfo_invalid_id_witness :
    connect demoInit { demoArgs with cameraId := 5 } = (demoInit, none) ∧
    (getCameraInfo demoInit 5).1 = Status.BAD_VALUE := by
  have h := connect_getCameraInfo_invalid_id demoInit { demoArgs with cameraId := 5 }
    (by decide)
  exact ⟨h.1, h.2.1 demoModule (by decide)⟩

/-- C5: once every earlier guard passes and the slot is idle, `connect`
dispatches on the resolved device version: version 1.0 constructs the legacy
`CameraClient`, versions 2.0 and 2.1 construct the modern `Camera2Client`
(in both cases exactly one new client record is allocated, of that variant),
and version `-1` (invalid) or any other unknown version returns NULL with no
client constructed and the state unchanged. -/
theorem connect_version_dispatch (s : CamState) (a : ConnectArgs) (m : CameraModule)
    (hm : s.module = some m)
    (hid0 : 0 ≤ a.cameraId) (hidn : a.cameraId < s.numberOfCameras)
    (hdis : s.disabledProp = false)
    (huid : a.clientUid = USE_CALLING_UID)
    (hslot : s.slot.getD a.cameraId.toNat none = none)
    (hbusy : s.busy.getD a.cameraId.toNat false = false) :
    ((getDeviceVersion m a.cameraId).1 = CAMERA_DEVICE_API_VERSION_1_0 →
      (connect s a).1.clients.length = s.clients.length + 1 ∧
      ((connect s a).1.clients[s.clients.length]?).map ClientObj.variant =
        some ClientVariant.cameraClient) ∧
    (((getDeviceVersion m a.cameraId).1 = CAMERA_DEVICE_API_VERSION_2_0 ∨
      (getDeviceVersion m a.cameraId).1 = CAMERA_DEVICE_API_VERSION_2_1) →
      (connect s a).1.clients.length = s.clients.length + 1 ∧
      ((connect s a).1.clients[s.clients.length]?).map ClientObj.variant =
        some ClientVariant.camera2Client) ∧
    ((getDeviceVersion m a.cameraId).1 ≠ CAMERA_DEVICE_API_VERSION_1_0 ∧
      (getDeviceVersion m a.cameraId).1 ≠ CAMERA_DEVICE_API_VERSION_2_0 ∧
      (getDeviceVersion m a.cameraId).1 ≠ CAMERA_DEVICE_API_VERSION_2_1 →
      connect s a = (s, none)) := by
  have h1 : ¬(a.clientUid ≠ USE_CALLING_UID ∧ a.callingPid ≠ s.servicePid) := by
    simp [huid]
  have h2 : ¬(a.cameraId < 0 ∨ s.numberOfCameras ≤ a.cameraId) := by omega
  have h3 : ¬(s.disabledProp = true) := by simp [hdis]
  have h4 : ¬(s.busy.getD a.cameraId.toNat false = true) := by rw [hbusy]; simp
  have hconn : connect s a = connectLocked s m a
      (if a.clientUid = USE_CALLING_UID then a.callingUid else a.clientUid) := by
    unfold connect
    rw [if_neg h1, hm]
    simp only []
    rw [if_neg h2, if_neg h3, hslot]
  rw [hconn]
  unfold connectLocked
  rw [if_neg h4]
  simp only []
  refine ⟨?_, ?_, ?_⟩
  · intro hv
    rw [if_pos hv]
    exact connectFinish_shape _ _ _ _ _
  · intro hv
    have hne1 : ¬(getDeviceVersion m a.cameraId).1 = CAMERA_DEVICE_API_VERSION_1_0 := by
      rcases hv with hv | hv <;> rw [hv] <;> decide
    rw [if_neg hne1, if_pos hv]
    exact connectFinish_shape _ _ _ _ _
  · rintro ⟨hv1, hv2, hv3⟩
    rw [if_neg hv1, if_neg (by rintro (hh | hh) <;> [exact hv2 hh; exact hv3 hh])]

/-- C5 witness: the demo device reports version 2.0, so the fresh connect
allocates exactly one client of the modern `Camera2Client` variant. -/
theorem connect_version_dispatch_witness :
    (connect demoInit demoArgs).1.clients.length = demoInit.clients.length + 1 ∧
    ((connect demoInit demoArgs).1.clients[demoInit.clients.length]?).map ClientObj.variant =
      some ClientVariant.camera2Client :=
  (connect_version_dispatch demoInit demoArgs demoModule (by decide) (by decide) (by decide)
    (by decide) (by decide) (by decide) (by decide)).2.1 (Or.inl (by decide))

/-- C9: when the slot's busy flag is still set but its weak client handle no
longer promotes (the transitional teardown race), `connect` returns NULL:
no new client is constructed, the busy flag is not reset, and the sound
refcount is untouched — a rejection, not a cleanup-and-retry. -/
theorem connect_busy_race_rejected (s : CamState) (a : ConnectArgs) (m : CameraModule)
    (cid : Nat)
    (hm : s.module = some m)
    (hid0 : 0 ≤ a.cameraId) (hidn : a.cameraId < s.numberOfCameras)
    (hdis : s.disabledProp = false)
    (huid : a.clientUid = USE_CALLING_UID)
    (hslot : s.slot.getD a.cameraId.toNat none = some cid)
    (hdead : ∀ c, s.clients[cid]? = some c → c.alive = false)
    (hbusy : s.busy.getD a.cameraId.toNat false = true) :
    (connect s a).2 = none ∧ (connect s a).1.clients = s.clients ∧
    (connect s a).1.busy = s.busy ∧ (connect s a).1.soundRef = s.soundRef := by
  have h1 : ¬(a.clientUid ≠ USE_CALLING_UID ∧ a.callingPid ≠ s.servicePid) := by
    simp [huid]
  have h2 : ¬(a.cameraId < 0 ∨ s.numberOfCameras ≤ a.cameraId) := by omega
  have h3 : ¬(s.disabledProp = true) := by simp [hdis]
  have hconn : connect s a = connectLocked { s with slot := s.slot.set a.cameraId.toNat none }
      m a (if a.clientUid = USE_CALLING_UID then a.callingUid else a.clientUid) := by
    unfold connect
    rw [if_neg h1, hm]
    simp only []
    rw [if_neg h2, if_neg h3, hslot]
    simp only []
    cases hcl : s.clients[cid]? with
    | none => rfl
    | some c =>
      simp only []
      rw [if_neg (by simp [hdead c hcl])]
  rw [hconn]
  unfold connectLocked
  rw [if_pos (by simpa using hbusy)]
  exact ⟨rfl, rfl, rfl, rfl⟩

/-- C9 witness: in the drop-window state the slot still points at the dead
client and the busy bit is set; the rival connect from remote 8 is rejected
with no client constructed and busy untouched. -/
theorem connect_busy_race_rejected_witness :
    (connect demoDropped demoArgs8).2 = none ∧
    (connect demoDropped demoArgs8).1.clients = demoDropped.clients ∧
    (connect demoDropped demoArgs8).1.busy = demoDropped.busy ∧
    (connect demoDropped demoArgs8).1.soundRef = demoDropped.soundRef :=
  connect_busy_race_rejected demoDropped demoArgs8 demoModule 0 (by decide) (by decide)
    (by decide) (by decide) (by decide) (by decide)
    (fun c hc => by
      have : c = deadUpdate (newClient demoInit demoArgs 1000 ClientVariant.camera2Client 0) := by
        have hd : demoDropped.clients[0]? =
            some (deadUpdate (newClient demoInit demoArgs 1000 ClientVariant.camera2Client 0)) := by
          decide
        rw [hd] at hc
        injection hc with hh
        exact hh.symm
      rw [this]
      decide)
    (by decide)

/-- C2 counterexample: after the owner's binder death, `Client::disconnect`
runs to completion and `setCameraFree` clears the busy flag, yet the client
object is still alive and its destructor has not even started — so the busy
flag does not stay set until the destructor completes, and `setCameraFree`
is not invoked only as the final step of destruction. -/
theorem busy_cleared_before_destructor :
    demoAfterDeath.busy.getD 0 false = false ∧
    demoAfterDeath.clients[0]?.map ClientObj.alive = some true ∧
    demoAfterDeath.clients[0]?.map ClientObj.destructionStarted = some false ∧
    demoAfterDeath.clients[0]?.map ClientObj.destroyed = some false := by
  decide

/-- C2 (amended): `setCameraFree` is the final action of the idempotent
`Client::disconnect` — the disconnect trace ends with it and it clears the
slot's busy flag — and, because the destructor invokes that disconnect as
its own last step, the destructor's trace also ends with `setCameraFree`.
The busy flag therefore reads true from construction until the client's
disconnect completes, but an explicit or death-triggered disconnect may
clear it before the destructor runs. -/
theorem busy_until_disconnect (s : CamState) (cid : Nat) (c : ClientObj)
    (hc : s.clients[cid]? = some c) :
    (clientDisconnect s cid).2.getLast? = some (Event.setCameraFree c.cameraId) ∧
    (clientDisconnect s cid).1.busy = s.busy.set c.cameraId.toNat false ∧
    (runClientDestructor s cid).2.getLast? = some (Event.setCameraFree c.cameraId) := by
  refine ⟨?_, clientDisconnect_busy s cid c hc, ?_⟩
  · rw [clientDisconnect_snd s cid c hc]
    exact List.getLast?_concat _
  · obtain ⟨f, r, hf, hsnd⟩ := runClientDestructor_snd s cid c hc
    rw [hsnd]
    have hre : Event.markDestructionStarted :: Event.releaseSound ::
        (f ++ (r ++ [Event.setCameraFree c.cameraId])) =
        (Event.markDestructionStarted :: Event.releaseSound :: f) ++
          (r ++ [Event.setCameraFree c.cameraId]) := by
      simp
    rw [hre]
    exact getLast?_shape _ _ _

/-- C2 witness: disconnecting the concrete owner ends with `setCameraFree 0`
and clears busy slot 0, and the destructor trace also ends with
`setCameraFree 0`. -/
theorem busy_until_disconnect_witness :
    (clientDisconnect demoOwned 0).2.getLast? = some (Event.setCameraFree 0) ∧
    (clientDisconnect demoOwned 0).1.busy = demoOwned.busy.set 0 false ∧
    (runClientDestructor demoOwned 0).2.getLast? = some (Event.setCameraFree 0) :=
  busy_until_disconnect demoOwned 0
    (newClient demoInit demoArgs 1000 ClientVariant.camera2Client 0) (by decide)

/-- C3 counterexample: `demoPro` holds a live ProCamera observer at remote
endpoint 5, yet `getClientByRemote` (which `binderDied` uses) scans only the
exclusive `mClient[]` table and finds nothing, so the observer's death
notification emits no events and the observer's disconnect is never invoked
— `binderDied` does not look up observers. -/
theorem binderDied_ignores_observers :
    demoPro.clients[0]?.map ClientObj.isPro = some true ∧
    demoPro.clients[0]?.map ClientObj.alive = some true ∧
    demoPro.clients[0]?.map ClientObj.remote = some 5 ∧
    (getClientByRemote demoPro 5).2 = none ∧
    (binderDied demoPro 5).2 = [] ∧
    (binderDied demoPro 5).1.clients[0]?.map ClientObj.disconnected = some false := by
  decide

/-- C3 (amended): `binderDied` looks up only a live exclusive owner matching
the dead remote identity (via `getClientByRemote`, which scans the
`mClient[]` slot table and never the observer lists): if the lookup fails
then no slot owns that remote, no events are emitted and the client records
are untouched (only stale slots are pruned); if it succeeds the found slot
is owned by a live client with that remote and the service invokes that
client's disconnect. -/
theorem binderDied_owner_lookup (s : CamState) (who : Nat) :
    ((getClientByRemote s who).2 = none →
      (binderDied s who).2 = [] ∧ (binderDied s who).1.clients = s.clients ∧
      ∀ i, i < s.numberOfCameras.toNat → ¬ slotOwner s.clients s.slot who i) ∧
    (∀ j cid, (getClientByRemote s who).2 = some (j, cid) →
      slotOwner s.clients s.slot who j ∧
      binderDied s who = clientDisconnect (getClientByRemote s who).1 cid) := by
  constructor
  · intro h
    refine ⟨?_, ?_, findClientUnsafe_spec_none s who h⟩
    · unfold binderDied
      rw [h]
    · unfold binderDied
      rw [h]
      simp only []
      show ((findClientUnsafe s who).1).clients = s.clients
      rw [findClientUnsafe_fst]
  · intro j cid h
    obtain ⟨hslot, c, hc, hal, hr⟩ := findClientUnsafe_spec_some s who j cid h
    refine ⟨⟨cid, c, hslot, hc, hal, hr⟩, ?_⟩
    unfold binderDied
    rw [h]

/-- C3 witness: for the observer state, `binderDied 5` emits nothing and
leaves the client records unchanged; for the owned state, slot 0 is owned by
remote 7 and `binderDied 7` is exactly that owner's disconnect. -/
theorem binderDied_owner_lookup_witness :
    ((binderDied demoPro 5).2 = [] ∧ (binderDied demoPro 5).1.clients = demoPro.clients ∧
      ∀ i, i < demoPro.numberOfCameras.toNat → ¬ slotOwner demoPro.clients demoPro.slot 5 i) ∧
    (slotOwner demoOwned.clients demoOwned.slot 7 0 ∧
      binderDied demoOwned 7 = clientDisconnect (getClientByRemote demoOwned 7).1 0) :=
  ⟨(binderDied_owner_lookup demoPro 5).1 (by decide),
   (binderDied_owner_lookup demoOwned 7).2 0 0 (by decide)⟩

/-- C6: in every reachable service state, the shared sound refcount equals
the number of currently-live exclusive clients (each `Client` construction
acquires once, each destruction releases once); it is never negative; and
whenever it is zero both sound players are torn down. -/
theorem soundRef_invariant (s : CamState) (h : Reachable s) :
    s.soundRef = (liveExclusiveCount s : Int) ∧ 0 ≤ s.soundRef ∧
    (s.soundRef = 0 → s.soundLoaded = [false, false]) := by
  have hinv : SoundInv s := by
    induction h with
    | init mod pid => exact ⟨rfl, fun _ => rfl⟩
    | step s o hs ih => exact soundInv_applyOp s o ih
  refine ⟨hinv.1, ?_, hinv.2⟩
  rw [hinv.1]
  exact Int.natCast_nonneg _

/-- C6 witness: the concrete owned state is reachable in one step and there
the refcount equals the single live exclusive client. -/
theorem soundRef_invariant_witness :
    demoOwned.soundRef = (liveExclusiveCount demoOwned : Int) ∧ 0 ≤ demoOwned.soundRef ∧
    (demoOwned.soundRef = 0 → demoOwned.soundLoaded = [false, false]) :=
  soundRef_invariant demoOwned
    (Reachable.step demoInit (Op.connect demoArgs) (Reachable.init (some demoModule) 99))

/-- C7: when the app-ops watch reports a non-allowed result for `OP_CAMERA`
on a live exclusive client, the client first re-stamps its stored caller pid
to the current calling pid, then emits the error notification to its remote,
and only then runs its disconnect: the emitted trace is exactly
`setClientPid`, `notifyError`, followed by the disconnect trace, and the
resulting state is the disconnect of the pid-restamped state. -/
theorem opChanged_revoked_order (s : CamState) (cid : Nat) (c : ClientObj)
    (res : AppOpsMode) (callingPid : Int)
    (hc : s.clients[cid]? = some c) (halive : c.alive = true)
    (hpro : c.isPro = false) (hres : res ≠ AppOpsMode.allowed) :
    (opChanged s cid OP_CAMERA res callingPid).2 =
      Event.setClientPid callingPid :: Event.notifyError c.remote ::
        (clientDisconnect
          { s with clients := modifyClient s.clients cid (pidUpdate callingPid) } cid).2 ∧
    (opChanged s cid OP_CAMERA res callingPid).1 =
      (clientDisconnect
        { s with clients := modifyClient s.clients cid (pidUpdate callingPid) } cid).1 := by
  unfold opChanged
  rw [hc]
  simp only []
  rw [if_neg (by rw [halive]; simp), if_neg (by simp), if_neg hres, hpro]
  simp only [Bool.false_eq_true, reduceIte]
  refine ⟨?_, ?_⟩ <;> first | rfl | trivial

/-- C7 witness: revoking the concrete owner with result IGNORED and calling
pid 55 stamps pid 55, notifies remote 7, then disconnects. -/
theorem opChanged_revoked_order_witness :
    (opChanged demoOwned 0 OP_CAMERA AppOpsMode.ignored 55).2 =
      Event.setClientPid 55 :: Event.notifyError 7 ::
        (clientDisconnect
          { demoOwned with clients := modifyClient demoOwned.clients 0 (pidUpdate 55) } 0).2 ∧
    (opChanged demoOwned 0 OP_CAMERA AppOpsMode.ignored 55).1 =
      (clientDisconnect
        { demoOwned with clients := modifyClient demoOwned.clients 0 (pidUpdate 55) } 0).1 :=
  opChanged_revoked_order demoOwned 0
    (newClient demoInit demoArgs 1000 ClientVariant.camera2Client 0) AppOpsMode.ignored 55
    (by decide) (by decide) (by decide) (by decide)

/-- C8: the exclusive client's destructor performs exactly the claimed
sequence — it emits `markDestructionStarted`, then `releaseSound`, then the
permission-watch revocation (`stopWatchingMode`, preceded by `finishOp` when
an op was active), then the idempotent disconnect whose registry
unregistration ends with `setCameraFree` as the very last event — and the
net state effect records all destructor flags, clears the slot's busy bit
and releases one sound reference. -/
theorem client_destructor_sequence (s : CamState) (cid : Nat) (c : ClientObj)
    (hc : s.clients[cid]? = some c) :
    ∃ finishEvs removeEvs,
      (finishEvs = [Event.stopWatchingMode] ∨
        finishEvs = [Event.finishOp, Event.stopWatchingMode]) ∧
      (runClientDestructor s cid).2 =
        Event.markDestructionStarted :: Event.releaseSound ::
          (finishEvs ++ (removeEvs ++ [Event.setCameraFree c.cameraId])) ∧
      (runClientDestructor s cid).1.clients = modifyClient s.clients cid destructorUpdate ∧
      (runClientDestructor s cid).1.busy = s.busy.set c.cameraId.toNat false ∧
      (runClientDestructor s cid).1.soundRef = s.soundRef - 1 := by
  obtain ⟨f, r, hf, hsnd⟩ := runClientDestructor_snd s cid c hc
  have hp := runClientDestructor_parts s cid c hc
  exact ⟨f, r, hf, hsnd, hp.1, hp.2.1, hp.2.2.1⟩

/-- C8 witness: running the destructor on the concrete dropped client emits
exactly mark, releaseSound, stopWatchingMode, setCameraFree 0, and clears
busy slot 0. -/
theorem client_destructor_sequence_witness :
    (runClientDestructor demoDropped 0).2 =
      [Event.markDestructionStarted, Event.releaseSound, Event.stopWatchingMode,
        Event.setCameraFree 0] ∧
    (runClientDestructor demoDropped 0).1.busy = demoDropped.busy.set 0 false := by
  obtain ⟨f, r, hf, hsnd, hcl, hbusy, hsr⟩ := client_destructor_sequence demoDropped 0
    (deadUpdate (newClient demoInit demoArgs 1000 ClientVariant.camera2Client 0)) (by decide)
  exact ⟨by decide, hbusy⟩

/-- C10 counterexample: a HAL module whose `get_number_of_cameras()` answers
`-1` is stored unclamped from below, so `getNumberOfCameras` returns `-1`,
outside the claimed range `[0, MAX_CAMERAS]`. -/
theorem getNumberOfCameras_negative :
    getNumberOfCameras (initState (some demoNegModule) 99) = -1 ∧
    getNumberOfCameras (initState (some demoNegModule) 99) < 0 := by
  decide

/-- C10 (amended): `getNumberOfCameras` never exceeds `MAX_CAMERAS`: at
startup it is 0 when the HAL module fails to load, and otherwise exactly the
HAL count clamped down to `MAX_CAMERAS` — which is nonnegative only when the
HAL count is — and no service transition ever changes it afterwards. -/
theorem getNumberOfCameras_clamped (mod : Option CameraModule) (pid : Int)
    (s : CamState) (o : Op) :
    getNumberOfCameras (initState mod pid) ≤ MAX_CAMERAS ∧
    (mod = none → getNumberOfCameras (initState mod pid) = 0) ∧
    (∀ m, mod = some m →
      getNumberOfCameras (initState mod pid) =
        (if MAX_CAMERAS < m.halNumberOfCameras then MAX_CAMERAS
         else m.halNumberOfCameras) ∧
      (0 ≤ m.halNumberOfCameras → 0 ≤ getNumberOfCameras (initState mod pid))) ∧
    getNumberOfCameras (applyOp s o) = getNumberOfCameras s := by
  have hval : getNumberOfCameras (initState mod pid) =
      (match mod with
       | none => 0
       | some m => if MAX_CAMERAS < m.halNumberOfCameras then MAX_CAMERAS
         else m.halNumberOfCameras) := rfl
  have hM : (0 : Int) ≤ MAX_CAMERAS := by decide
  refine ⟨?_, ?_, ?_, (applyOp_reg s o).1⟩
  · rw [hval]
    cases mod with
    | none => exact hM
    | some m =>
      simp only []
      split <;> omega
  · intro h
    subst h
    rw [hval]
  · intro m hm
    subst hm
    refine ⟨hval, ?_⟩
    intro hn
    rw [hval]
    simp only []
    split <;> omega

/-- C10 witness: with the demo module loaded the count is the clamped HAL
count and stays unchanged across a connect; with no module it is 0. -/
theorem getNumberOfCameras_clamped_witness :
    getNumberOfCameras (initState (some demoModule) 99) =
      (if MAX_CAMERAS < demoModule.halNumberOfCameras then MAX_CAMERAS
       else demoModule.halNumberOfCameras) ∧
    getNumberOfCameras (initState none 99) = 0 ∧
    getNumberOfCameras (applyOp demoInit (Op.connect demoArgs)) =
      getNumberOfCameras demoInit :=
  ⟨((getNumberOfCameras_clamped (some demoModule) 99 demoInit
      (Op.connect demoArgs)).2.2.1 demoModule rfl).1,
   (getNumberOfCameras_clamped none 99 demoInit (Op.connect demoArgs)).2.1 rfl,
   (getNumberOfCameras_clamped (some demoModule) 99 demoInit
      (Op.connect demoArgs)).2.2.2⟩

end CameraService
